import Mathlib

/-!
FreeNES: load / store / transfer semantics of `cpu_6502.h`.

A shallow embedding of `src/cpu_6502.h`.

Conventions of the embedding

* Machine integers are natural numbers.  Every function parameter of type
  `uint8_t` / `bit` is reduced modulo `256` and every parameter of type
  `uint16_t` modulo `65536` when the function is entered: this is the implicit
  conversion C++ performs at the call.  Arithmetic inside an expression
  (`nn + __reg.getX()`) is done on `int` after integer promotion, hence it is
  plain addition of naturals here; the reduction only happens when the sum is
  handed to a `uint16_t` parameter.
* Fields of the C++ classes are fields of structures; the range of a field
  (`uint8_t`, `uint16_t`) is recorded by the predicates `wf`.
* A member function that mutates its object returns the new object; one that
  also returns a value returns the pair `(value, new object)`.
* The C++ member names start with two underscores (`__reg`, `__handle_opcode_A8`);
  the underscores are dropped here, the rest of each name is kept.
* `template <typename T>` helpers take `sizeof(T)` as their first argument.
-/

namespace FreeNES

/-! ## `class memory_map` -/

/-- The constant `memory_map::memsize = 0x10000`. -/
def memsize : Nat := 0x10000

/-- The class `memory_map`: `mem` is the content of the byte array, by index. -/
structure memory_map where
  mem : Nat → Nat

namespace memory_map

/-- Every cell of the array holds a `uint8_t`. -/
def wf (m : memory_map) : Prop := ∀ a : Nat, a < memsize → m.mem a < 256

/-- The member `uint8_t readByte(uint16_t addr) const`:
`addr %= memsize; return mem[addr];`. -/
def readByte (m : memory_map) (addr : Nat) : Nat :=
  let addr := addr % 65536
  let addr := addr % memsize
  m.mem addr

/-- The member `uint8_t writeByte(uint16_t addr, uint8_t byteData)`:
`addr %= memsize; return mem[addr] = byteData;`. -/
def writeByte (m : memory_map) (addr byteData : Nat) : Nat × memory_map :=
  let addr := addr % 65536
  let byteData := byteData % 256
  let addr := addr % memsize
  (byteData, { mem := fun a => if a = addr then byteData else m.mem a })

/-- The element `mem[i]` of the array allocated by `new uint8_t[memsize]`, read.
The array has the indices below `memsize` and no other: an access at a larger
index is outside the allocation and has no defined result. -/
def byteAt (m : memory_map) (i : Nat) : Option Nat :=
  if i < memsize then some (m.mem i) else none

/-- The element `mem[i]` of the array, overwritten with the byte `v`; as for
`byteAt` only the indices below `memsize` exist. -/
def setByteAt (m : memory_map) (i v : Nat) : Option memory_map :=
  if i < memsize then some { mem := fun a => if a = i then v else m.mem a } else none

/-- The member `uint16_t readWord(uint16_t addr) const`:
`addr %= memsize; return *((uint16_t *)&mem[addr]);`.  The dereferenced
`uint16_t` covers the two bytes `mem[addr]` and `mem[addr + 1]`, the first being
the low byte on a little-endian host; the index `addr + 1` is not reduced. -/
def readWord (m : memory_map) (addr : Nat) : Option Nat :=
  let addr := addr % 65536
  let addr := addr % memsize
  (m.byteAt addr).bind fun lo =>
  (m.byteAt (addr + 1)).bind fun hi =>
  some (lo + 256 * hi)

/-- The member `uint16_t writeWord(uint16_t addr, uint16_t wordData)`:
`addr %= memsize; return *((uint16_t *)&mem[addr]) = wordData;`.  The assignment
stores the low byte in `mem[addr]` and the high byte in `mem[addr + 1]`
(little-endian host); the index `addr + 1` is not reduced. -/
def writeWord (m : memory_map) (addr wordData : Nat) : Option (Nat × memory_map) :=
  let addr := addr % 65536
  let wordData := wordData % 65536
  let addr := addr % memsize
  (m.setByteAt addr (wordData % 256)).bind fun m1 =>
  (m1.setByteAt (addr + 1) (wordData / 256)).bind fun m2 =>
  some (wordData, m2)

end memory_map

/-! ## `class cpu_6502_register` -/

/-- The class `cpu_6502_register`: program counter, stack pointer, index
registers, accumulator and the seven flags (each flag is a `bit`, that is an
`unsigned char`). -/
structure cpu_6502_register where
  PC : Nat
  S : Nat
  X : Nat
  Y : Nat
  A : Nat
  flagC : Nat
  flagZ : Nat
  flagI : Nat
  flagD : Nat
  flagB : Nat
  flagV : Nat
  flagN : Nat

namespace cpu_6502_register

/-- Every field is within the range of its C++ type. -/
def wf (r : cpu_6502_register) : Prop :=
  r.PC < 65536 ∧ r.S < 256 ∧ r.X < 256 ∧ r.Y < 256 ∧ r.A < 256 ∧
  r.flagC < 256 ∧ r.flagZ < 256 ∧ r.flagI < 256 ∧ r.flagD < 256 ∧
  r.flagB < 256 ∧ r.flagV < 256 ∧ r.flagN < 256

instance (r : cpu_6502_register) : Decidable r.wf := by
  unfold wf; infer_instance

/-- The template `bool isNegative(T res)`:
`return ((res >> (sizeof(T) - 1)) & 0x0001UL) ? true : false;`. -/
def isNegative (sizeofT : Nat) (res : Nat) : Bool :=
  if (res >>> (sizeofT - 1)) &&& 0x0001 ≠ 0 then true else false

/-- The template `bool isZero(T res)`: `return res == 0 ? true : false;`. -/
def isZero (_sizeofT : Nat) (res : Nat) : Bool :=
  if res = 0 then true else false

/-- The member `uint8_t setX(uint8_t i) { return __X = i; }`. -/
def setX (r : cpu_6502_register) (i : Nat) : Nat × cpu_6502_register :=
  let i := i % 256
  (i, { r with X := i })

/-- The member `uint8_t setY(uint8_t i) { return __Y = i; }`. -/
def setY (r : cpu_6502_register) (i : Nat) : Nat × cpu_6502_register :=
  let i := i % 256
  (i, { r with Y := i })

/-- The member `uint8_t setA(uint8_t i) { return __A = i; }`. -/
def setA (r : cpu_6502_register) (i : Nat) : Nat × cpu_6502_register :=
  let i := i % 256
  (i, { r with A := i })

/-- The member `uint8_t setS(uint8_t i) { return __S = i; }`. -/
def setS (r : cpu_6502_register) (i : Nat) : Nat × cpu_6502_register :=
  let i := i % 256
  (i, { r with S := i })

/-- The member `uint8_t setPC(uint16_t i) { return __PC = i; }`: the stored
value is 16 bits wide, the returned one is converted to `uint8_t`. -/
def setPC (r : cpu_6502_register) (i : Nat) : Nat × cpu_6502_register :=
  let i := i % 65536
  (i % 256, { r with PC := i })

/-- The member `uint8_t getX() const`. -/
def getX (r : cpu_6502_register) : Nat := r.X

/-- The member `uint8_t getY() const`. -/
def getY (r : cpu_6502_register) : Nat := r.Y

/-- The member `uint8_t getA() const`. -/
def getA (r : cpu_6502_register) : Nat := r.A

/-- The member `uint8_t getS() const`. -/
def getS (r : cpu_6502_register) : Nat := r.S

/-- The member `uint16_t getPC() const`. -/
def getPC (r : cpu_6502_register) : Nat := r.PC

/-- The member `bit setFlagN(bit flag) { return __flagN = flag; }`. -/
def setFlagN (r : cpu_6502_register) (flag : Nat) : Nat × cpu_6502_register :=
  let flag := flag % 256
  (flag, { r with flagN := flag })

/-- The member `bit setFlagV(bit flag)`. -/
def setFlagV (r : cpu_6502_register) (flag : Nat) : Nat × cpu_6502_register :=
  let flag := flag % 256
  (flag, { r with flagV := flag })

/-- The member `bit setFlagB(bit flag)`. -/
def setFlagB (r : cpu_6502_register) (flag : Nat) : Nat × cpu_6502_register :=
  let flag := flag % 256
  (flag, { r with flagB := flag })

/-- The member `bit setFlagD(bit flag)`. -/
def setFlagD (r : cpu_6502_register) (flag : Nat) : Nat × cpu_6502_register :=
  let flag := flag % 256
  (flag, { r with flagD := flag })

/-- The member `bit setFlagI(bit flag)`. -/
def setFlagI (r : cpu_6502_register) (flag : Nat) : Nat × cpu_6502_register :=
  let flag := flag % 256
  (flag, { r with flagI := flag })

/-- The member `bit setFlagZ(bit flag) { return __flagZ = flag; }`. -/
def setFlagZ (r : cpu_6502_register) (flag : Nat) : Nat × cpu_6502_register :=
  let flag := flag % 256
  (flag, { r with flagZ := flag })

/-- The member `bit setFlagC(bit flag)`. -/
def setFlagC (r : cpu_6502_register) (flag : Nat) : Nat × cpu_6502_register :=
  let flag := flag % 256
  (flag, { r with flagC := flag })

/-- The member `bit getFlagN() const`. -/
def getFlagN (r : cpu_6502_register) : Nat := r.flagN

/-- The member `bit getFlagV() const`. -/
def getFlagV (r : cpu_6502_register) : Nat := r.flagV

/-- The member `bit getFlagB() const`. -/
def getFlagB (r : cpu_6502_register) : Nat := r.flagB

/-- The member `bit getFlagD() const`. -/
def getFlagD (r : cpu_6502_register) : Nat := r.flagD

/-- The member `bit getFlagI() const`. -/
def getFlagI (r : cpu_6502_register) : Nat := r.flagI

/-- The member `bit getFlagZ() const`. -/
def getFlagZ (r : cpu_6502_register) : Nat := r.flagZ

/-- The member `bit getFlagC() const`. -/
def getFlagC (r : cpu_6502_register) : Nat := r.flagC

/-- The template `void checkFlagN(T res)`:
`setFlagN(isNegative(res) ? 1 : 0);`. -/
def checkFlagN (sizeofT : Nat) (r : cpu_6502_register) (res : Nat) : cpu_6502_register :=
  (r.setFlagN (if isNegative sizeofT res then 1 else 0)).2

/-- The template `void checkFlagZ(T res)`:
`setFlagZ(isZero(res) ? 1 : 0);`. -/
def checkFlagZ (sizeofT : Nat) (r : cpu_6502_register) (res : Nat) : cpu_6502_register :=
  (r.setFlagZ (if isZero sizeofT res then 1 else 0)).2

end cpu_6502_register

/-! ## `class cpu_6502` -/

/-- The class `cpu_6502`: a register file and a memory map. -/
structure cpu_6502 where
  reg : cpu_6502_register
  memmap : memory_map

namespace cpu_6502

/-- Both components hold values of their C++ types. -/
def wf (c : cpu_6502) : Prop := c.reg.wf ∧ c.memmap.wf

/-- The member `getReg()`. -/
def getReg (c : cpu_6502) : cpu_6502_register := c.reg

/-- The member `getMemMap()`. -/
def getMemMap (c : cpu_6502) : memory_map := c.memmap

/-- The size of `uint8_t`, the type `auto res` has in every handler (the
setters return `uint8_t`). -/
def sizeof_uint8_t : Nat := 1

/-! ### Register / immediate to register transfer -/

/-- Handler `__handle_opcode_A8`, `MOV Y, A`. -/
def handle_opcode_A8 (c : cpu_6502) : cpu_6502 :=
  let p := c.reg.setY c.reg.getA
  let res := p.1
  let reg := p.2.checkFlagN sizeof_uint8_t res
  let reg := reg.checkFlagZ sizeof_uint8_t res
  { c with reg := reg }

/-- Handler `__handle_opcode_AA`, `MOV X, A`. -/
def handle_opcode_AA (c : cpu_6502) : cpu_6502 :=
  let p := c.reg.setX c.reg.getA
  let res := p.1
  let reg := p.2.checkFlagN sizeof_uint8_t res
  let reg := reg.checkFlagZ sizeof_uint8_t res
  { c with reg := reg }

/-- Handler `__handle_opcode_BA`, `MOV X, S`. -/
def handle_opcode_BA (c : cpu_6502) : cpu_6502 :=
  let p := c.reg.setX c.reg.getS
  let res := p.1
  let reg := p.2.checkFlagN sizeof_uint8_t res
  let reg := reg.checkFlagZ sizeof_uint8_t res
  { c with reg := reg }

/-- Handler `__handle_opcode_98`, `MOV A, Y`. -/
def handle_opcode_98 (c : cpu_6502) : cpu_6502 :=
  let p := c.reg.setA c.reg.getY
  let res := p.1
  let reg := p.2.checkFlagN sizeof_uint8_t res
  let reg := reg.checkFlagZ sizeof_uint8_t res
  { c with reg := reg }

/-- Handler `__handle_opcode_8A`, `MOV A,X`. -/
def handle_opcode_8A (c : cpu_6502) : cpu_6502 :=
  let p := c.reg.setA c.reg.getX
  let res := p.1
  let reg := p.2.checkFlagN sizeof_uint8_t res
  let reg := reg.checkFlagZ sizeof_uint8_t res
  { c with reg := reg }

/-- Handler `__handle_opcode_9A`, `MOV S, X`: `auto res = __reg.setS(__reg.getX());`
and nothing else. -/
def handle_opcode_9A (c : cpu_6502) : cpu_6502 :=
  let p := c.reg.setS c.reg.getX
  { c with reg := p.2 }

/-- Handler `__handle_opcode_A9nn`, `MOV A,nn`. -/
def handle_opcode_A9nn (c : cpu_6502) (nn : Nat) : cpu_6502 :=
  let nn := nn % 256
  let p := c.reg.setA nn
  let res := p.1
  let reg := p.2.checkFlagN sizeof_uint8_t res
  let reg := reg.checkFlagZ sizeof_uint8_t res
  { c with reg := reg }

/-- Handler `__handle_opcode_A2nn`, `MOV X, nn`. -/
def handle_opcode_A2nn (c : cpu_6502) (nn : Nat) : cpu_6502 :=
  let nn := nn % 256
  let p := c.reg.setX nn
  let res := p.1
  let reg := p.2.checkFlagN sizeof_uint8_t res
  let reg := reg.checkFlagZ sizeof_uint8_t res
  { c with reg := reg }

/-- Handler `__handle_opcode_A0nn`, `MOV Y, nn`. -/
def handle_opcode_A0nn (c : cpu_6502) (nn : Nat) : cpu_6502 :=
  let nn := nn % 256
  let p := c.reg.setY nn
  let res := p.1
  let reg := p.2.checkFlagN sizeof_uint8_t res
  let reg := reg.checkFlagZ sizeof_uint8_t res
  { c with reg := reg }

/-! ### Load register from memory -/

/-- Handler `__handle_opcode_A5nn`, `MOV A, [nn]`. -/
def handle_opcode_A5nn (c : cpu_6502) (nn : Nat) : cpu_6502 :=
  let nn := nn % 256
  let p := c.reg.setA (c.memmap.readByte nn)
  let res := p.1
  let reg := p.2.checkFlagN sizeof_uint8_t res
  let reg := reg.checkFlagZ sizeof_uint8_t res
  { c with reg := reg }

/-- Handler `__handle_opcode_B5nn`, `MOV A, [nn + X]`. -/
def handle_opcode_B5nn (c : cpu_6502) (nn : Nat) : cpu_6502 :=
  let nn := nn % 256
  let p := c.reg.setA (c.memmap.readByte (nn + c.reg.getX))
  let res := p.1
  let reg := p.2.checkFlagN sizeof_uint8_t res
  let reg := reg.checkFlagZ sizeof_uint8_t res
  { c with reg := reg }

/-- Handler `__handle_opcode_ADnnnn`, `MOV A, [nnnn]`. -/
def handle_opcode_ADnnnn (c : cpu_6502) (nnnn : Nat) : cpu_6502 :=
  let nnnn := nnnn % 65536
  let p := c.reg.setA (c.memmap.readByte nnnn)
  let res := p.1
  let reg := p.2.checkFlagN sizeof_uint8_t res
  let reg := reg.checkFlagZ sizeof_uint8_t res
  { c with reg := reg }

/-- Handler `__handle_opcode_BDnnnn`, `MOV A, [nnnn + X]`. -/
def handle_opcode_BDnnnn (c : cpu_6502) (nnnn : Nat) : cpu_6502 :=
  let nnnn := nnnn % 65536
  let p := c.reg.setA (c.memmap.readByte (nnnn + c.reg.getX))
  let res := p.1
  let reg := p.2.checkFlagN sizeof_uint8_t res
  let reg := reg.checkFlagZ sizeof_uint8_t res
  { c with reg := reg }

/-- Handler `__handle_opcode_B9nnnn`, `MOV A, [nnnn + Y]`. -/
def handle_opcode_B9nnnn (c : cpu_6502) (nnnn : Nat) : cpu_6502 :=
  let nnnn := nnnn % 65536
  let p := c.reg.setA (c.memmap.readByte (nnnn + c.reg.getY))
  let res := p.1
  let reg := p.2.checkFlagN sizeof_uint8_t res
  let reg := reg.checkFlagZ sizeof_uint8_t res
  { c with reg := reg }

/-- Handler `__handle_opcode_A1nn`, `MOV A, [[nn + X]]`. -/
def handle_opcode_A1nn (c : cpu_6502) (nn : Nat) : cpu_6502 :=
  let nn := nn % 256
  let p := c.reg.setA (c.memmap.readByte (c.memmap.readByte (nn + c.reg.getX)))
  let res := p.1
  let reg := p.2.checkFlagN sizeof_uint8_t res
  let reg := reg.checkFlagZ sizeof_uint8_t res
  { c with reg := reg }

/-- Handler `__handle_opcode_B1nn`, `MOV A, [[nn] + Y]`. -/
def handle_opcode_B1nn (c : cpu_6502) (nn : Nat) : cpu_6502 :=
  let nn := nn % 256
  let p := c.reg.setA (c.memmap.readByte (c.memmap.readByte nn + c.reg.getY))
  let res := p.1
  let reg := p.2.checkFlagN sizeof_uint8_t res
  let reg := reg.checkFlagZ sizeof_uint8_t res
  { c with reg := reg }

/-- Handler `__handle_opcode_A6nn`, `MOV X, [nn]`. -/
def handle_opcode_A6nn (c : cpu_6502) (nn : Nat) : cpu_6502 :=
  let nn := nn % 256
  let p := c.reg.setX (c.memmap.readByte nn)
  let res := p.1
  let reg := p.2.checkFlagN sizeof_uint8_t res
  let reg := reg.checkFlagZ sizeof_uint8_t res
  { c with reg := reg }

/-- Handler `__handle_opcode_B6nn`, `MOV X, [nn + Y]`. -/
def handle_opcode_B6nn (c : cpu_6502) (nn : Nat) : cpu_6502 :=
  let nn := nn % 256
  let p := c.reg.setX (c.memmap.readByte (nn + c.reg.getY))
  let res := p.1
  let reg := p.2.checkFlagN sizeof_uint8_t res
  let reg := reg.checkFlagZ sizeof_uint8_t res
  { c with reg := reg }

/-- Handler `__handle_opcode_AEnnnn`, `MOV X, [nnnn]`. -/
def handle_opcode_AEnnnn (c : cpu_6502) (nnnn : Nat) : cpu_6502 :=
  let nnnn := nnnn % 65536
  let p := c.reg.setX (c.memmap.readByte nnnn)
  let res := p.1
  let reg := p.2.checkFlagN sizeof_uint8_t res
  let reg := reg.checkFlagZ sizeof_uint8_t res
  { c with reg := reg }

/-- Handler `__handle_opcode_BEnnnn`, `MOV X, [nnnn + Y]`. -/
def handle_opcode_BEnnnn (c : cpu_6502) (nnnn : Nat) : cpu_6502 :=
  let nnnn := nnnn % 65536
  let p := c.reg.setX (c.memmap.readByte (nnnn + c.reg.getY))
  let res := p.1
  let reg := p.2.checkFlagN sizeof_uint8_t res
  let reg := reg.checkFlagZ sizeof_uint8_t res
  { c with reg := reg }

/-- Handler `__handle_opcode_A4nn`, `MOV Y, [nn]`. -/
def handle_opcode_A4nn (c : cpu_6502) (nn : Nat) : cpu_6502 :=
  let nn := nn % 256
  let p := c.reg.setY (c.memmap.readByte nn)
  let res := p.1
  let reg := p.2.checkFlagN sizeof_uint8_t res
  let reg := reg.checkFlagZ sizeof_uint8_t res
  { c with reg := reg }

/-- Handler `__handle_opcode_B4nn`, `MOV Y, [nn + X]`. -/
def handle_opcode_B4nn (c : cpu_6502) (nn : Nat) : cpu_6502 :=
  let nn := nn % 256
  let p := c.reg.setY (c.memmap.readByte (nn + c.reg.getX))
  let res := p.1
  let reg := p.2.checkFlagN sizeof_uint8_t res
  let reg := reg.checkFlagZ sizeof_uint8_t res
  { c with reg := reg }

/-- Handler `__handle_opcode_ACnnnn`, `MOV Y, [nnnn]`. -/
def handle_opcode_ACnnnn (c : cpu_6502) (nnnn : Nat) : cpu_6502 :=
  let nnnn := nnnn % 65536
  let p := c.reg.setY (c.memmap.readByte nnnn)
  let res := p.1
  let reg := p.2.checkFlagN sizeof_uint8_t res
  let reg := reg.checkFlagZ sizeof_uint8_t res
  { c with reg := reg }

/-- Handler `__handle_opcode_BCnnnn`, `MOV Y, [nnnn + X]`. -/
def handle_opcode_BCnnnn (c : cpu_6502) (nnnn : Nat) : cpu_6502 :=
  let nnnn := nnnn % 65536
  let p := c.reg.setY (c.memmap.readByte (nnnn + c.reg.getX))
  let res := p.1
  let reg := p.2.checkFlagN sizeof_uint8_t res
  let reg := reg.checkFlagZ sizeof_uint8_t res
  { c with reg := reg }

/-! ### Store register in memory -/

/-- Handler `__handle_opcode_85nn`, `MOV [nn], A`. -/
def handle_opcode_85nn (c : cpu_6502) (nn : Nat) : cpu_6502 :=
  let nn := nn % 256
  let p := c.memmap.writeByte (nn) c.reg.getA
  { c with memmap := p.2 }

/-- Handler `__handle_opcode_95nn`, `MOV [nn + X], A`. -/
def handle_opcode_95nn (c : cpu_6502) (nn : Nat) : cpu_6502 :=
  let nn := nn % 256
  let p := c.memmap.writeByte (nn + c.reg.getX) c.reg.getA
  { c with memmap := p.2 }

/-- Handler `__handle_opcode_8Dnnnn`, `MOV [nnnn], A`. -/
def handle_opcode_8Dnnnn (c : cpu_6502) (nnnn : Nat) : cpu_6502 :=
  let nnnn := nnnn % 65536
  let p := c.memmap.writeByte (nnnn) c.reg.getA
  { c with memmap := p.2 }

/-- Handler `__handle_opcode_9Dnnnn`, `MOV [nnnn + X], A`. -/
def handle_opcode_9Dnnnn (c : cpu_6502) (nnnn : Nat) : cpu_6502 :=
  let nnnn := nnnn % 65536
  let p := c.memmap.writeByte (nnnn + c.reg.getX) c.reg.getA
  { c with memmap := p.2 }

/-- Handler `__handle_opcode_99nnnn`, `MOV [nnnn + Y], A`. -/
def handle_opcode_99nnnn (c : cpu_6502) (nnnn : Nat) : cpu_6502 :=
  let nnnn := nnnn % 65536
  let p := c.memmap.writeByte (nnnn + c.reg.getY) c.reg.getA
  { c with memmap := p.2 }

/-- Handler `__handle_opcode_81nn`, `MOV [[nn + X]], A`. -/
def handle_opcode_81nn (c : cpu_6502) (nn : Nat) : cpu_6502 :=
  let nn := nn % 256
  let p := c.memmap.writeByte (c.memmap.readByte (nn + c.reg.getX)) c.reg.getA
  { c with memmap := p.2 }

/-- Handler `__handle_opcode_91nn`, commented `MOV [[nn] + Y], A`; its body is
`__memmap.writeByte(__memmap.readByte(nn + __reg.getX()), __reg.getA());`. -/
def handle_opcode_91nn (c : cpu_6502) (nn : Nat) : cpu_6502 :=
  let nn := nn % 256
  let p := c.memmap.writeByte (c.memmap.readByte (nn + c.reg.getX)) c.reg.getA
  { c with memmap := p.2 }

/-- Handler `__handle_opcode_86nn`: the body is empty. -/
def handle_opcode_86nn (c : cpu_6502) (nn : Nat) : cpu_6502 :=
  let _nn := nn % 256
  c

end cpu_6502

open cpu_6502

/-! ## Concrete machine states used by the evaluations below -/

/-- A register file with every register and every flag equal to zero. -/
def reg_zero : cpu_6502_register :=
  { PC := 0, S := 0, X := 0, Y := 0, A := 0,
    flagC := 0, flagZ := 0, flagI := 0, flagD := 0, flagB := 0, flagV := 0, flagN := 0 }

/-- A memory whose cells all hold zero. -/
def mem_zero : memory_map := { mem := fun _ => 0 }

/-- All registers, flags and memory cells are zero. -/
def state_zero : cpu_6502 := { reg := reg_zero, memmap := mem_zero }

/-- The accumulator holds `0x80`, everything else is zero. -/
def state_A80 : cpu_6502 := { reg := { reg_zero with A := 0x80 }, memmap := mem_zero }

/-- Registers `A = 0x55`, `X = 0x01`, `Y = 0x02`, the Zero and Carry flags set,
memory all zero. -/
def state_store : cpu_6502 :=
  { reg := { reg_zero with A := 0x55, X := 0x01, Y := 0x02, flagZ := 1, flagC := 1 },
    memmap := mem_zero }

/-- Scenario `memory[0x0010] = 0x42`, `X = 0x05`. -/
def state_zp_x : cpu_6502 :=
  { reg := { reg_zero with X := 0x05 },
    memmap := { mem := fun a => if a = 0x0010 then 0x42 else 0 } }

/-- Index `X = Y = 0x02`, `A = 0x55`, `memory[0x0001] = 0x11`, `memory[0x0101] = 0x22`. -/
def state_zp_wrap : cpu_6502 :=
  { reg := { reg_zero with X := 0x02, Y := 0x02, A := 0x55 },
    memmap := { mem := fun a => if a = 0x0001 then 0x11 else if a = 0x0101 then 0x22 else 0 } }

/-- Index `X = Y = 0x01`, `A = 0x55`, `memory[0x0000] = 0x77`. -/
def state_abs_wrap : cpu_6502 :=
  { reg := { reg_zero with X := 0x01, Y := 0x01, A := 0x55 },
    memmap := { mem := fun a => if a = 0x0000 then 0x77 else 0 } }

/-- Scenario `memory[0x0020] = 0x30`, `memory[0x0021] = 0x40`, `Y = 0x01`, with
`memory[0x0031] = 0xAA` and `memory[0x4031] = 0xBB` to tell the two cells apart. -/
def state_ind_y : cpu_6502 :=
  { reg := { reg_zero with Y := 0x01 },
    memmap := { mem := fun a =>
      if a = 0x0020 then 0x30 else if a = 0x0021 then 0x40
      else if a = 0x0031 then 0xAA else if a = 0x4031 then 0xBB else 0 } }

/-- Registers `A = 0x55`, `X = 0x01`, `Y = 0x02`, `memory[0x0020] = 0x30`,
`memory[0x0021] = 0x40`, every other cell zero. -/
def state_ind_store : cpu_6502 :=
  { reg := { reg_zero with A := 0x55, X := 0x01, Y := 0x02 },
    memmap := { mem := fun a => if a = 0x0020 then 0x30 else if a = 0x0021 then 0x40 else 0 } }

/-- Index `X = 0x02`, `memory[0x0001] = 0x10`, `memory[0x0101] = 0x20`,
`memory[0x0010] = 0xAA`, `memory[0x0020] = 0xBB`, every other cell zero. -/
def state_ind_x : cpu_6502 :=
  { reg := { reg_zero with X := 0x02 },
    memmap := { mem := fun a =>
      if a = 0x0001 then 0x10 else if a = 0x0101 then 0x20
      else if a = 0x0010 then 0xAA else if a = 0x0020 then 0xBB else 0 } }

/-- A memory with `memory[0xFFFF] = 0x34` and `memory[0x0000] = 0x12`, every other
cell zero. -/
def mem_word : memory_map :=
  { mem := fun a => if a = 0xFFFF then 0x34 else if a = 0x0000 then 0x12 else 0 }

/-- The size of `uint16_t`. -/
def sizeof_uint16_t : Nat := 2

/-- Registers `PC = 0xABCD`, `S = 0x11`, `X = 0x22`, `Y = 0x33`, `A = 0x44` and all
seven flags set. -/
def reg_mixed : cpu_6502_register :=
  { PC := 0xABCD, S := 0x11, X := 0x22, Y := 0x33, A := 0x44,
    flagC := 1, flagZ := 1, flagI := 1, flagD := 1, flagB := 1, flagV := 1, flagN := 1 }

/-! ## Basic facts about the memory map and the flag helpers -/

theorem memory_map.readByte_eq (m : memory_map) (a : Nat) :
    m.readByte a = m.mem (a % 65536) := by
  simp [memory_map.readByte, memsize]

theorem memory_map.readByte_lt (m : memory_map) (hm : m.wf) (a : Nat) :
    m.readByte a < 256 := by
  rw [memory_map.readByte_eq]
  exact hm _ (by unfold memsize; omega)

theorem memory_map.mem_mod (m : memory_map) (hm : m.wf) (a : Nat) (ha : a < 65536) :
    m.mem a % 256 = m.mem a :=
  Nat.mod_eq_of_lt (hm a (by unfold memsize; omega))

theorem memory_map.writeByte_read_same (m : memory_map) (a v : Nat) :
    (m.writeByte a v).2.readByte a = v % 256 := by
  simp [memory_map.readByte, memory_map.writeByte, memsize]

theorem memory_map.writeByte_read_other (m : memory_map) (a v b : Nat)
    (h : b % 65536 ≠ a % 65536) :
    (m.writeByte a v).2.readByte b = m.readByte b := by
  simp [memory_map.readByte, memory_map.writeByte, memsize, h]

theorem cpu_6502_register.isNegative_one (res : Nat) :
    isNegative 1 res = decide (res % 2 = 1) := by
  unfold isNegative
  have h := Nat.and_one_is_mod res
  have h2 := Nat.mod_two_eq_zero_or_one res
  rcases h2 with h2 | h2 <;> simp [h, h2]

theorem state_zero_wf : state_zero.wf := by
  refine ⟨by decide, fun a _ => ?_⟩
  simp [state_zero, mem_zero]

/-! ## Wellformedness of the concrete states -/

theorem state_A80_wf : state_A80.wf := by
  refine ⟨by decide, fun a _ => ?_⟩
  simp [state_A80, mem_zero]

theorem state_store_wf : state_store.wf := by
  refine ⟨by decide, fun a _ => ?_⟩
  simp [state_store, mem_zero]

theorem state_zp_x_wf : state_zp_x.wf := by
  refine ⟨by decide, fun a _ => ?_⟩
  simp only [state_zp_x]
  split <;> omega

theorem state_zp_wrap_wf : state_zp_wrap.wf := by
  refine ⟨by decide, fun a _ => ?_⟩
  simp only [state_zp_wrap]
  repeat' split
  all_goals omega

theorem state_abs_wrap_wf : state_abs_wrap.wf := by
  refine ⟨by decide, fun a _ => ?_⟩
  simp only [state_abs_wrap]
  split <;> omega

theorem state_ind_y_wf : state_ind_y.wf := by
  refine ⟨by decide, fun a _ => ?_⟩
  simp only [state_ind_y]
  repeat' split
  all_goals omega

theorem state_ind_store_wf : state_ind_store.wf := by
  refine ⟨by decide, fun a _ => ?_⟩
  simp only [state_ind_store]
  repeat' split
  all_goals omega

/-! ## Negative and Zero flags after a load or a transfer -/

/-- C1: handler AA (`MOV X, A`) started with `A = 0x80` stores `0x80` in `X`, a
value whose bit 7 is set, and leaves the Negative flag at `0`: `isNegative`
shifts by `sizeof(T) - 1 = 0` and so tests bit 0 of the value. -/
theorem C1_AA_at_0x80_negative_flag_clear :
    state_A80.wf ∧
    (handle_opcode_AA state_A80).reg.X = 0x80 ∧
    (0x80 >>> 7) &&& 1 = 1 ∧
    (handle_opcode_AA state_A80).reg.flagN = 0 :=
  ⟨state_A80_wf, by decide, by decide, by decide⟩

/-- C2: after each register transfer and load handler the destination register
holds the effective value of the addressing mode, and the Zero flag is 1 if and
only if that new value is 0. -/
theorem C2_load_sets_destination_and_zero_flag (c : cpu_6502) (nn nnnn : Nat)
    (hc : c.wf) (hnn : nn < 256) (hnnnn : nnnn < 65536) :
    ((handle_opcode_A8 c).reg.Y = c.reg.A ∧
      ((handle_opcode_A8 c).reg.flagZ = 1 ↔ (handle_opcode_A8 c).reg.Y = 0)) ∧
    ((handle_opcode_AA c).reg.X = c.reg.A ∧
      ((handle_opcode_AA c).reg.flagZ = 1 ↔ (handle_opcode_AA c).reg.X = 0)) ∧
    ((handle_opcode_BA c).reg.X = c.reg.S ∧
      ((handle_opcode_BA c).reg.flagZ = 1 ↔ (handle_opcode_BA c).reg.X = 0)) ∧
    ((handle_opcode_98 c).reg.A = c.reg.Y ∧
      ((handle_opcode_98 c).reg.flagZ = 1 ↔ (handle_opcode_98 c).reg.A = 0)) ∧
    ((handle_opcode_8A c).reg.A = c.reg.X ∧
      ((handle_opcode_8A c).reg.flagZ = 1 ↔ (handle_opcode_8A c).reg.A = 0)) ∧
    ((handle_opcode_A9nn c nn).reg.A = nn ∧
      ((handle_opcode_A9nn c nn).reg.flagZ = 1 ↔ (handle_opcode_A9nn c nn).reg.A = 0)) ∧
    ((handle_opcode_A2nn c nn).reg.X = nn ∧
      ((handle_opcode_A2nn c nn).reg.flagZ = 1 ↔ (handle_opcode_A2nn c nn).reg.X = 0)) ∧
    ((handle_opcode_A0nn c nn).reg.Y = nn ∧
      ((handle_opcode_A0nn c nn).reg.flagZ = 1 ↔ (handle_opcode_A0nn c nn).reg.Y = 0)) ∧
    ((handle_opcode_A5nn c nn).reg.A = c.memmap.mem nn ∧
      ((handle_opcode_A5nn c nn).reg.flagZ = 1 ↔ (handle_opcode_A5nn c nn).reg.A = 0)) ∧
    ((handle_opcode_B5nn c nn).reg.A = c.memmap.mem (nn + c.reg.X) ∧
      ((handle_opcode_B5nn c nn).reg.flagZ = 1 ↔ (handle_opcode_B5nn c nn).reg.A = 0)) ∧
    ((handle_opcode_ADnnnn c nnnn).reg.A = c.memmap.mem nnnn ∧
      ((handle_opcode_ADnnnn c nnnn).reg.flagZ = 1 ↔ (handle_opcode_ADnnnn c nnnn).reg.A = 0)) ∧
    ((handle_opcode_BDnnnn c nnnn).reg.A = c.memmap.mem ((nnnn + c.reg.X) % 65536) ∧
      ((handle_opcode_BDnnnn c nnnn).reg.flagZ = 1 ↔ (handle_opcode_BDnnnn c nnnn).reg.A = 0)) ∧
    ((handle_opcode_B9nnnn c nnnn).reg.A = c.memmap.mem ((nnnn + c.reg.Y) % 65536) ∧
      ((handle_opcode_B9nnnn c nnnn).reg.flagZ = 1 ↔ (handle_opcode_B9nnnn c nnnn).reg.A = 0)) ∧
    ((handle_opcode_A1nn c nn).reg.A = c.memmap.mem (c.memmap.mem (nn + c.reg.X)) ∧
      ((handle_opcode_A1nn c nn).reg.flagZ = 1 ↔ (handle_opcode_A1nn c nn).reg.A = 0)) ∧
    ((handle_opcode_B1nn c nn).reg.A = c.memmap.mem (c.memmap.mem nn + c.reg.Y) ∧
      ((handle_opcode_B1nn c nn).reg.flagZ = 1 ↔ (handle_opcode_B1nn c nn).reg.A = 0)) ∧
    ((handle_opcode_A6nn c nn).reg.X = c.memmap.mem nn ∧
      ((handle_opcode_A6nn c nn).reg.flagZ = 1 ↔ (handle_opcode_A6nn c nn).reg.X = 0)) ∧
    ((handle_opcode_B6nn c nn).reg.X = c.memmap.mem (nn + c.reg.Y) ∧
      ((handle_opcode_B6nn c nn).reg.flagZ = 1 ↔ (handle_opcode_B6nn c nn).reg.X = 0)) ∧
    ((handle_opcode_AEnnnn c nnnn).reg.X = c.memmap.mem nnnn ∧
      ((handle_opcode_AEnnnn c nnnn).reg.flagZ = 1 ↔ (handle_opcode_AEnnnn c nnnn).reg.X = 0)) ∧
    ((handle_opcode_BEnnnn c nnnn).reg.X = c.memmap.mem ((nnnn + c.reg.Y) % 65536) ∧
      ((handle_opcode_BEnnnn c nnnn).reg.flagZ = 1 ↔ (handle_opcode_BEnnnn c nnnn).reg.X = 0)) ∧
    ((handle_opcode_A4nn c nn).reg.Y = c.memmap.mem nn ∧
      ((handle_opcode_A4nn c nn).reg.flagZ = 1 ↔ (handle_opcode_A4nn c nn).reg.Y = 0)) ∧
    ((handle_opcode_B4nn c nn).reg.Y = c.memmap.mem (nn + c.reg.X) ∧
      ((handle_opcode_B4nn c nn).reg.flagZ = 1 ↔ (handle_opcode_B4nn c nn).reg.Y = 0)) ∧
    ((handle_opcode_ACnnnn c nnnn).reg.Y = c.memmap.mem nnnn ∧
      ((handle_opcode_ACnnnn c nnnn).reg.flagZ = 1 ↔ (handle_opcode_ACnnnn c nnnn).reg.Y = 0)) ∧
    ((handle_opcode_BCnnnn c nnnn).reg.Y = c.memmap.mem ((nnnn + c.reg.X) % 65536) ∧
      ((handle_opcode_BCnnnn c nnnn).reg.flagZ = 1 ↔ (handle_opcode_BCnnnn c nnnn).reg.Y = 0)) := by
  obtain ⟨⟨-, hS, hX, hY, hA, -⟩, hm⟩ := hc
  have e1 : nn % 256 = nn := Nat.mod_eq_of_lt hnn
  have e2 : nnnn % 65536 = nnnn := Nat.mod_eq_of_lt hnnnn
  have eA : c.reg.A % 256 = c.reg.A := Nat.mod_eq_of_lt hA
  have eX : c.reg.X % 256 = c.reg.X := Nat.mod_eq_of_lt hX
  have eY : c.reg.Y % 256 = c.reg.Y := Nat.mod_eq_of_lt hY
  have eS : c.reg.S % 256 = c.reg.S := Nat.mod_eq_of_lt hS
  have e3 : nn % 65536 = nn := Nat.mod_eq_of_lt (by omega)
  have e4 : (nn + c.reg.X) % 65536 = nn + c.reg.X := Nat.mod_eq_of_lt (by omega)
  have e5 : (nn + c.reg.Y) % 65536 = nn + c.reg.Y := Nat.mod_eq_of_lt (by omega)
  have hb : ∀ a, c.memmap.mem (a % 65536) < 256 := fun a =>
    hm _ (by unfold memsize; omega)
  have hmm : ∀ a, c.memmap.mem (a % 65536) % 256 = c.memmap.mem (a % 65536) := fun a =>
    Nat.mod_eq_of_lt (hb a)
  have e6 : c.memmap.mem nn % 256 = c.memmap.mem nn := by simpa [e3] using hmm nn
  have e7 : c.memmap.mem nnnn % 256 = c.memmap.mem nnnn := by simpa [e2] using hmm nnnn
  have e8 : c.memmap.mem (nn + c.reg.X) % 256 = c.memmap.mem (nn + c.reg.X) := by
    simpa [e4] using hmm (nn + c.reg.X)
  have e9 : c.memmap.mem (nn + c.reg.Y) % 256 = c.memmap.mem (nn + c.reg.Y) := by
    simpa [e5] using hmm (nn + c.reg.Y)
  have e10 : (c.memmap.mem nn + c.reg.Y) % 65536 = c.memmap.mem nn + c.reg.Y :=
    Nat.mod_eq_of_lt (by have := hb nn; rw [e3] at this; omega)
  have e11 : c.memmap.mem (nn + c.reg.X) % 65536 = c.memmap.mem (nn + c.reg.X) :=
    Nat.mod_eq_of_lt (by have := hb (nn + c.reg.X); rw [e4] at this; omega)
  have e12 : c.memmap.mem (c.memmap.mem nn + c.reg.Y) % 256
      = c.memmap.mem (c.memmap.mem nn + c.reg.Y) := by
    simpa [e10] using hmm (c.memmap.mem nn + c.reg.Y)
  have e13 : c.memmap.mem (c.memmap.mem (nn + c.reg.X)) % 256
      = c.memmap.mem (c.memmap.mem (nn + c.reg.X)) := by
    simpa [e11] using hmm (c.memmap.mem (nn + c.reg.X))
  have hz : ∀ v : Nat, ((if v = 0 then 1 else 0) % 256 = 1 ↔ v = 0) := by
    intro v; split <;> simp_all
  simp only [handle_opcode_A8, handle_opcode_AA, handle_opcode_BA, handle_opcode_98,
    handle_opcode_8A, handle_opcode_A9nn, handle_opcode_A2nn, handle_opcode_A0nn,
    handle_opcode_A5nn, handle_opcode_B5nn, handle_opcode_ADnnnn, handle_opcode_BDnnnn,
    handle_opcode_B9nnnn, handle_opcode_A1nn, handle_opcode_B1nn, handle_opcode_A6nn,
    handle_opcode_B6nn, handle_opcode_AEnnnn, handle_opcode_BEnnnn, handle_opcode_A4nn,
    handle_opcode_B4nn, handle_opcode_ACnnnn, handle_opcode_BCnnnn, sizeof_uint8_t,
    cpu_6502_register.setA, cpu_6502_register.setX, cpu_6502_register.setY,
    cpu_6502_register.checkFlagN, cpu_6502_register.checkFlagZ, cpu_6502_register.setFlagN,
    cpu_6502_register.setFlagZ, cpu_6502_register.isZero, cpu_6502_register.getA,
    cpu_6502_register.getX, cpu_6502_register.getY, cpu_6502_register.getS,
    memory_map.readByte_eq, e1, e2, e3, e4, e5, e6, e7, e8, e9, e10, e11, e12, e13, eA, eX,
    eY, eS, hmm]
  simp [hz]

/-- Witness of C2: load A immediate `0x00` from the all-zero state gives
`A = 0x00`, Zero = 1, Negative = 0. -/
theorem C2_witness_load_immediate_zero :
    state_zero.wf ∧ (0 : Nat) < 256 ∧ (0 : Nat) < 65536 ∧
    (handle_opcode_A9nn state_zero 0).reg.A = 0x00 ∧
    (handle_opcode_A9nn state_zero 0).reg.flagZ = 1 ∧
    (handle_opcode_A9nn state_zero 0).reg.flagN = 0 :=
  have h := (C2_load_sets_destination_and_zero_flag state_zero 0 0 state_zero_wf
    (by decide) (by decide)).2.2.2.2.2.1
  ⟨state_zero_wf, by decide, by decide, h.1, h.2.mpr h.1, by decide⟩

/-! ## Stores leave the flags alone -/

/-- C3: each of the seven store handlers (85nn, 95nn, 8Dnnnn, 9Dnnnn, 99nnnn,
81nn, 91nn) leaves all seven flags, Negative and Zero included, as they were. -/
theorem C3_store_keeps_flags (c : cpu_6502) (nn nnnn : Nat) :
    ((handle_opcode_85nn c nn).reg.flagN = c.reg.flagN ∧
      (handle_opcode_85nn c nn).reg.flagZ = c.reg.flagZ ∧
      (handle_opcode_85nn c nn).reg.flagC = c.reg.flagC ∧
      (handle_opcode_85nn c nn).reg.flagI = c.reg.flagI ∧
      (handle_opcode_85nn c nn).reg.flagD = c.reg.flagD ∧
      (handle_opcode_85nn c nn).reg.flagB = c.reg.flagB ∧
      (handle_opcode_85nn c nn).reg.flagV = c.reg.flagV) ∧
    ((handle_opcode_95nn c nn).reg.flagN = c.reg.flagN ∧
      (handle_opcode_95nn c nn).reg.flagZ = c.reg.flagZ ∧
      (handle_opcode_95nn c nn).reg.flagC = c.reg.flagC ∧
      (handle_opcode_95nn c nn).reg.flagI = c.reg.flagI ∧
      (handle_opcode_95nn c nn).reg.flagD = c.reg.flagD ∧
      (handle_opcode_95nn c nn).reg.flagB = c.reg.flagB ∧
      (handle_opcode_95nn c nn).reg.flagV = c.reg.flagV) ∧
    ((handle_opcode_8Dnnnn c nnnn).reg.flagN = c.reg.flagN ∧
      (handle_opcode_8Dnnnn c nnnn).reg.flagZ = c.reg.flagZ ∧
      (handle_opcode_8Dnnnn c nnnn).reg.flagC = c.reg.flagC ∧
      (handle_opcode_8Dnnnn c nnnn).reg.flagI = c.reg.flagI ∧
      (handle_opcode_8Dnnnn c nnnn).reg.flagD = c.reg.flagD ∧
      (handle_opcode_8Dnnnn c nnnn).reg.flagB = c.reg.flagB ∧
      (handle_opcode_8Dnnnn c nnnn).reg.flagV = c.reg.flagV) ∧
    ((handle_opcode_9Dnnnn c nnnn).reg.flagN = c.reg.flagN ∧
      (handle_opcode_9Dnnnn c nnnn).reg.flagZ = c.reg.flagZ ∧
      (handle_opcode_9Dnnnn c nnnn).reg.flagC = c.reg.flagC ∧
      (handle_opcode_9Dnnnn c nnnn).reg.flagI = c.reg.flagI ∧
      (handle_opcode_9Dnnnn c nnnn).reg.flagD = c.reg.flagD ∧
      (handle_opcode_9Dnnnn c nnnn).reg.flagB = c.reg.flagB ∧
      (handle_opcode_9Dnnnn c nnnn).reg.flagV = c.reg.flagV) ∧
    ((handle_opcode_99nnnn c nnnn).reg.flagN = c.reg.flagN ∧
      (handle_opcode_99nnnn c nnnn).reg.flagZ = c.reg.flagZ ∧
      (handle_opcode_99nnnn c nnnn).reg.flagC = c.reg.flagC ∧
      (handle_opcode_99nnnn c nnnn).reg.flagI = c.reg.flagI ∧
      (handle_opcode_99nnnn c nnnn).reg.flagD = c.reg.flagD ∧
      (handle_opcode_99nnnn c nnnn).reg.flagB = c.reg.flagB ∧
      (handle_opcode_99nnnn c nnnn).reg.flagV = c.reg.flagV) ∧
    ((handle_opcode_81nn c nn).reg.flagN = c.reg.flagN ∧
      (handle_opcode_81nn c nn).reg.flagZ = c.reg.flagZ ∧
      (handle_opcode_81nn c nn).reg.flagC = c.reg.flagC ∧
      (handle_opcode_81nn c nn).reg.flagI = c.reg.flagI ∧
      (handle_opcode_81nn c nn).reg.flagD = c.reg.flagD ∧
      (handle_opcode_81nn c nn).reg.flagB = c.reg.flagB ∧
      (handle_opcode_81nn c nn).reg.flagV = c.reg.flagV) ∧
    ((handle_opcode_91nn c nn).reg.flagN = c.reg.flagN ∧
      (handle_opcode_91nn c nn).reg.flagZ = c.reg.flagZ ∧
      (handle_opcode_91nn c nn).reg.flagC = c.reg.flagC ∧
      (handle_opcode_91nn c nn).reg.flagI = c.reg.flagI ∧
      (handle_opcode_91nn c nn).reg.flagD = c.reg.flagD ∧
      (handle_opcode_91nn c nn).reg.flagB = c.reg.flagB ∧
      (handle_opcode_91nn c nn).reg.flagV = c.reg.flagV) := by
  simp only [handle_opcode_85nn, handle_opcode_95nn, handle_opcode_8Dnnnn,
    handle_opcode_9Dnnnn, handle_opcode_99nnnn, handle_opcode_81nn, handle_opcode_91nn]
  simp

/-! ## The transfer from the stack pointer -/

/-- C4, refuted as stated: from the all-zero state handler BA (`MOV X, S`) does
not keep the Zero flag, it raises it from 0 to 1. -/
theorem C4_counterexample_BA_changes_zero_flag :
    ¬ ((handle_opcode_BA state_zero).reg.flagN = state_zero.reg.flagN ∧
       (handle_opcode_BA state_zero).reg.flagZ = state_zero.reg.flagZ ∧
       (handle_opcode_BA state_zero).reg.X = state_zero.reg.S) := by
  decide

/-- C4, amended: handler BA (`MOV X, S`) makes `X` the value of `S` and sets the
Zero flag from the value written: Zero is 1 when `S` is 0 and 0 otherwise. -/
theorem C4_BA_sets_X_and_zero_flag (c : cpu_6502) (hc : c.wf) :
    (handle_opcode_BA c).reg.X = c.reg.S ∧
    (handle_opcode_BA c).reg.flagZ = (if c.reg.S = 0 then 1 else 0) := by
  obtain ⟨⟨-, hS, -⟩, -⟩ := hc
  have eS : c.reg.S % 256 = c.reg.S := Nat.mod_eq_of_lt hS
  simp only [handle_opcode_BA, sizeof_uint8_t, cpu_6502_register.setX,
    cpu_6502_register.checkFlagN, cpu_6502_register.checkFlagZ, cpu_6502_register.setFlagN,
    cpu_6502_register.setFlagZ, cpu_6502_register.isZero, cpu_6502_register.getS, eS]
  refine ⟨trivial, ?_⟩
  split <;> simp_all

/-- Witness of the amended C4: with `S = 0` and Zero = 0 before, `X` is `0` and
Zero is 1 after handler BA. -/
theorem C4_witness_BA_at_zero :
    state_zero.wf ∧ (handle_opcode_BA state_zero).reg.X = 0 ∧
    (handle_opcode_BA state_zero).reg.flagZ = 1 :=
  have h := C4_BA_sets_X_and_zero_flag state_zero state_zero_wf
  ⟨state_zero_wf, h.1, h.2⟩

/-! ## Values loaded by the indexed and indirect loads -/

theorem memory_map.writeByte_read_eq (m : memory_map) (a v b : Nat)
    (h : b % 65536 = a % 65536) :
    (m.writeByte a v).2.readByte b = v % 256 := by
  simp [memory_map.readByte, memory_map.writeByte, memsize, h]

theorem handle_opcode_B5nn_value (c : cpu_6502) (nn : Nat) (hc : c.wf) (hnn : nn < 256) :
    (handle_opcode_B5nn c nn).reg.A = c.memmap.mem (nn + c.reg.X) := by
  obtain ⟨⟨-, -, hX, hY, -⟩, hm⟩ := hc
  show c.memmap.readByte (nn % 256 + c.reg.X) % 256 = _
  rw [Nat.mod_eq_of_lt (memory_map.readByte_lt _ hm _), memory_map.readByte_eq]
  congr 1
  omega

theorem handle_opcode_B6nn_value (c : cpu_6502) (nn : Nat) (hc : c.wf) (hnn : nn < 256) :
    (handle_opcode_B6nn c nn).reg.X = c.memmap.mem (nn + c.reg.Y) := by
  obtain ⟨⟨-, -, hX, hY, -⟩, hm⟩ := hc
  show c.memmap.readByte (nn % 256 + c.reg.Y) % 256 = _
  rw [Nat.mod_eq_of_lt (memory_map.readByte_lt _ hm _), memory_map.readByte_eq]
  congr 1
  omega

theorem handle_opcode_B4nn_value (c : cpu_6502) (nn : Nat) (hc : c.wf) (hnn : nn < 256) :
    (handle_opcode_B4nn c nn).reg.Y = c.memmap.mem (nn + c.reg.X) := by
  obtain ⟨⟨-, -, hX, hY, -⟩, hm⟩ := hc
  show c.memmap.readByte (nn % 256 + c.reg.X) % 256 = _
  rw [Nat.mod_eq_of_lt (memory_map.readByte_lt _ hm _), memory_map.readByte_eq]
  congr 1
  omega

theorem handle_opcode_BDnnnn_value (c : cpu_6502) (nnnn : Nat) (hc : c.wf) :
    (handle_opcode_BDnnnn c nnnn).reg.A = c.memmap.mem ((nnnn + c.reg.X) % 65536) := by
  obtain ⟨⟨-, -, hX, hY, -⟩, hm⟩ := hc
  show c.memmap.readByte (nnnn % 65536 + c.reg.X) % 256 = _
  rw [Nat.mod_eq_of_lt (memory_map.readByte_lt _ hm _), memory_map.readByte_eq]
  congr 1
  omega

theorem handle_opcode_B9nnnn_value (c : cpu_6502) (nnnn : Nat) (hc : c.wf) :
    (handle_opcode_B9nnnn c nnnn).reg.A = c.memmap.mem ((nnnn + c.reg.Y) % 65536) := by
  obtain ⟨⟨-, -, hX, hY, -⟩, hm⟩ := hc
  show c.memmap.readByte (nnnn % 65536 + c.reg.Y) % 256 = _
  rw [Nat.mod_eq_of_lt (memory_map.readByte_lt _ hm _), memory_map.readByte_eq]
  congr 1
  omega

theorem handle_opcode_BEnnnn_value (c : cpu_6502) (nnnn : Nat) (hc : c.wf) :
    (handle_opcode_BEnnnn c nnnn).reg.X = c.memmap.mem ((nnnn + c.reg.Y) % 65536) := by
  obtain ⟨⟨-, -, hX, hY, -⟩, hm⟩ := hc
  show c.memmap.readByte (nnnn % 65536 + c.reg.Y) % 256 = _
  rw [Nat.mod_eq_of_lt (memory_map.readByte_lt _ hm _), memory_map.readByte_eq]
  congr 1
  omega

theorem handle_opcode_BCnnnn_value (c : cpu_6502) (nnnn : Nat) (hc : c.wf) :
    (handle_opcode_BCnnnn c nnnn).reg.Y = c.memmap.mem ((nnnn + c.reg.X) % 65536) := by
  obtain ⟨⟨-, -, hX, hY, -⟩, hm⟩ := hc
  show c.memmap.readByte (nnnn % 65536 + c.reg.X) % 256 = _
  rw [Nat.mod_eq_of_lt (memory_map.readByte_lt _ hm _), memory_map.readByte_eq]
  congr 1
  omega

theorem handle_opcode_B1nn_value (c : cpu_6502) (nn : Nat) (hc : c.wf) (hnn : nn < 256) :
    (handle_opcode_B1nn c nn).reg.A = c.memmap.mem (c.memmap.mem nn + c.reg.Y) := by
  obtain ⟨⟨-, -, -, hY, -⟩, hm⟩ := hc
  have hp : c.memmap.readByte (nn % 256) = c.memmap.mem nn := by
    rw [memory_map.readByte_eq]
    congr 1
    omega
  have hlt : c.memmap.mem nn < 256 := hp ▸ memory_map.readByte_lt _ hm _
  show c.memmap.readByte (c.memmap.readByte (nn % 256) + c.reg.Y) % 256 = _
  rw [Nat.mod_eq_of_lt (memory_map.readByte_lt _ hm _), hp, memory_map.readByte_eq]
  congr 1
  omega

/-! ## Stores of the accumulator at a direct address -/

/-- C5: each direct-address store of the accumulator (85nn, 95nn, 8Dnnnn,
9Dnnnn, 99nnnn) leaves the accumulator in the byte at the effective address of
its mode, keeps every other byte of memory, and keeps A, X, Y, S and PC. -/
theorem C5_direct_store_writes_accumulator (c : cpu_6502) (nn nnnn : Nat)
    (hc : c.wf) (hnn : nn < 256) (hnnnn : nnnn < 65536) :
    ((handle_opcode_85nn c nn).memmap.readByte (nn) = c.reg.A ∧
      (∀ b : Nat, b < 65536 → b ≠ nn →
        (handle_opcode_85nn c nn).memmap.readByte b = c.memmap.readByte b) ∧
      (handle_opcode_85nn c nn).reg.A = c.reg.A ∧
      (handle_opcode_85nn c nn).reg.X = c.reg.X ∧
      (handle_opcode_85nn c nn).reg.Y = c.reg.Y ∧
      (handle_opcode_85nn c nn).reg.S = c.reg.S ∧
      (handle_opcode_85nn c nn).reg.PC = c.reg.PC) ∧
    ((handle_opcode_95nn c nn).memmap.readByte (nn + c.reg.X) = c.reg.A ∧
      (∀ b : Nat, b < 65536 → b ≠ nn + c.reg.X →
        (handle_opcode_95nn c nn).memmap.readByte b = c.memmap.readByte b) ∧
      (handle_opcode_95nn c nn).reg.A = c.reg.A ∧
      (handle_opcode_95nn c nn).reg.X = c.reg.X ∧
      (handle_opcode_95nn c nn).reg.Y = c.reg.Y ∧
      (handle_opcode_95nn c nn).reg.S = c.reg.S ∧
      (handle_opcode_95nn c nn).reg.PC = c.reg.PC) ∧
    ((handle_opcode_8Dnnnn c nnnn).memmap.readByte (nnnn) = c.reg.A ∧
      (∀ b : Nat, b < 65536 → b ≠ nnnn →
        (handle_opcode_8Dnnnn c nnnn).memmap.readByte b = c.memmap.readByte b) ∧
      (handle_opcode_8Dnnnn c nnnn).reg.A = c.reg.A ∧
      (handle_opcode_8Dnnnn c nnnn).reg.X = c.reg.X ∧
      (handle_opcode_8Dnnnn c nnnn).reg.Y = c.reg.Y ∧
      (handle_opcode_8Dnnnn c nnnn).reg.S = c.reg.S ∧
      (handle_opcode_8Dnnnn c nnnn).reg.PC = c.reg.PC) ∧
    ((handle_opcode_9Dnnnn c nnnn).memmap.readByte ((nnnn + c.reg.X) % 65536) = c.reg.A ∧
      (∀ b : Nat, b < 65536 → b ≠ (nnnn + c.reg.X) % 65536 →
        (handle_opcode_9Dnnnn c nnnn).memmap.readByte b = c.memmap.readByte b) ∧
      (handle_opcode_9Dnnnn c nnnn).reg.A = c.reg.A ∧
      (handle_opcode_9Dnnnn c nnnn).reg.X = c.reg.X ∧
      (handle_opcode_9Dnnnn c nnnn).reg.Y = c.reg.Y ∧
      (handle_opcode_9Dnnnn c nnnn).reg.S = c.reg.S ∧
      (handle_opcode_9Dnnnn c nnnn).reg.PC = c.reg.PC) ∧
    ((handle_opcode_99nnnn c nnnn).memmap.readByte ((nnnn + c.reg.Y) % 65536) = c.reg.A ∧
      (∀ b : Nat, b < 65536 → b ≠ (nnnn + c.reg.Y) % 65536 →
        (handle_opcode_99nnnn c nnnn).memmap.readByte b = c.memmap.readByte b) ∧
      (handle_opcode_99nnnn c nnnn).reg.A = c.reg.A ∧
      (handle_opcode_99nnnn c nnnn).reg.X = c.reg.X ∧
      (handle_opcode_99nnnn c nnnn).reg.Y = c.reg.Y ∧
      (handle_opcode_99nnnn c nnnn).reg.S = c.reg.S ∧
      (handle_opcode_99nnnn c nnnn).reg.PC = c.reg.PC) := by
  obtain ⟨⟨-, -, hX, hY, hA, -⟩, -⟩ := hc
  have eA : c.reg.A % 256 = c.reg.A := Nat.mod_eq_of_lt hA
  refine ⟨?_, ?_, ?_, ?_, ?_⟩
  · refine ⟨?_, ?_, rfl, rfl, rfl, rfl, rfl⟩
    · exact (memory_map.writeByte_read_eq c.memmap (nn % 256) c.reg.A _ (by omega)).trans eA
    · intro b hb hne
      exact memory_map.writeByte_read_other c.memmap (nn % 256) c.reg.A b (by omega)
  · refine ⟨?_, ?_, rfl, rfl, rfl, rfl, rfl⟩
    · exact (memory_map.writeByte_read_eq c.memmap (nn % 256 + c.reg.X) c.reg.A _ (by omega)).trans eA
    · intro b hb hne
      exact memory_map.writeByte_read_other c.memmap (nn % 256 + c.reg.X) c.reg.A b (by omega)
  · refine ⟨?_, ?_, rfl, rfl, rfl, rfl, rfl⟩
    · exact (memory_map.writeByte_read_eq c.memmap (nnnn % 65536) c.reg.A _ (by omega)).trans eA
    · intro b hb hne
      exact memory_map.writeByte_read_other c.memmap (nnnn % 65536) c.reg.A b (by omega)
  · refine ⟨?_, ?_, rfl, rfl, rfl, rfl, rfl⟩
    · exact (memory_map.writeByte_read_eq c.memmap (nnnn % 65536 + c.reg.X) c.reg.A _ (by omega)).trans eA
    · intro b hb hne
      exact memory_map.writeByte_read_other c.memmap (nnnn % 65536 + c.reg.X) c.reg.A b (by omega)
  · refine ⟨?_, ?_, rfl, rfl, rfl, rfl, rfl⟩
    · exact (memory_map.writeByte_read_eq c.memmap (nnnn % 65536 + c.reg.Y) c.reg.A _ (by omega)).trans eA
    · intro b hb hne
      exact memory_map.writeByte_read_other c.memmap (nnnn % 65536 + c.reg.Y) c.reg.A b (by omega)

/-- Witness of C5: with `A = 0x55`, `X = 1`, `Y = 2`, handler 95nn with operand
`0x10` leaves `0x55` at address `0x11`. -/
theorem C5_witness_store_zero_page_x :
    state_store.wf ∧ (0x10 : Nat) < 256 ∧ (0x1234 : Nat) < 65536 ∧
    (handle_opcode_95nn state_store 0x10).memmap.readByte 0x11 = 0x55 :=
  ⟨state_store_wf, by decide, by decide,
    (C5_direct_store_writes_accumulator state_store 0x10 0x1234 state_store_wf
      (by decide) (by decide)).2.1.1⟩

/-! ## Addressing-mode arithmetic -/

/-- C6: after handler B5nn (`MOV A, [nn + X]`) the accumulator is the memory byte
at address `nn + X` reduced modulo the memory size. -/
theorem C6_B5nn_loads_zero_page_x (c : cpu_6502) (nn : Nat) (hc : c.wf) (hnn : nn < 256) :
    (handle_opcode_B5nn c nn).reg.A = c.memmap.mem ((nn + c.reg.X) % memsize) := by
  have hX : c.reg.X < 256 := hc.1.2.2.1
  rw [handle_opcode_B5nn_value c nn hc hnn]
  congr 1
  unfold memsize
  omega

/-- Witness of C6: `memory[0x0010] = 0x42`, `X = 0x05`, operand `0x0B` gives
`A = 0x42`. -/
theorem C6_witness_scenario :
    state_zp_x.wf ∧ (0x0B : Nat) < 256 ∧
    (handle_opcode_B5nn state_zp_x 0x0B).reg.A = 0x42 :=
  ⟨state_zp_x_wf, by decide,
    (C6_B5nn_loads_zero_page_x state_zp_x 0x0B state_zp_x_wf (by decide)).trans (by decide)⟩

/-- C7, refuted as stated: with operand `0xFF`, `X = 0x02`, `memory[0x0001] = 0x11`
and `memory[0x0101] = 0x22`, handler B5nn does not load the byte at
`(0xFF + 0x02) mod 256 = 0x01`; it loads `0x22`, the byte at `0x0101`. -/
theorem C7_counterexample_no_zero_page_wrap :
    (0xFF + state_zp_wrap.reg.X) % 256 = 0x01 ∧
    (handle_opcode_B5nn state_zp_wrap 0xFF).reg.A = 0x22 ∧
    ¬ ((handle_opcode_B5nn state_zp_wrap 0xFF).reg.A =
        state_zp_wrap.memmap.readByte ((0xFF + state_zp_wrap.reg.X) % 256)) := by
  decide

/-- C7, amended: the zero-page-indexed handlers B5nn, B4nn, B6nn and 95nn access
address `nn + index`, a value below `0x1FF` that the reduction modulo the memory
size leaves as it is; there is no wrap at 256. -/
theorem C7_zero_page_indexed_address (c : cpu_6502) (nn : Nat) (hc : c.wf) (hnn : nn < 256) :
    (handle_opcode_B5nn c nn).reg.A = c.memmap.mem (nn + c.reg.X) ∧
    (handle_opcode_B4nn c nn).reg.Y = c.memmap.mem (nn + c.reg.X) ∧
    (handle_opcode_B6nn c nn).reg.X = c.memmap.mem (nn + c.reg.Y) ∧
    ((handle_opcode_95nn c nn).memmap.readByte (nn + c.reg.X) = c.reg.A ∧
      (∀ b : Nat, b < 65536 → b ≠ nn + c.reg.X →
        (handle_opcode_95nn c nn).memmap.readByte b = c.memmap.readByte b)) ∧
    (nn + c.reg.X) % memsize = nn + c.reg.X ∧
    (nn + c.reg.Y) % memsize = nn + c.reg.Y := by
  refine ⟨handle_opcode_B5nn_value c nn hc hnn, handle_opcode_B4nn_value c nn hc hnn,
    handle_opcode_B6nn_value c nn hc hnn, ?_, ?_, ?_⟩
  · obtain ⟨⟨-, -, hX, hY, hA, -⟩, -⟩ := hc
    have eA : c.reg.A % 256 = c.reg.A := Nat.mod_eq_of_lt hA
    refine ⟨?_, ?_⟩
    · exact (memory_map.writeByte_read_eq c.memmap (nn % 256 + c.reg.X) c.reg.A _
        (by omega)).trans eA
    · intro b hb hne
      exact memory_map.writeByte_read_other c.memmap (nn % 256 + c.reg.X) c.reg.A b (by omega)
  · have hX : c.reg.X < 256 := hc.1.2.2.1
    unfold memsize
    omega
  · have hY : c.reg.Y < 256 := hc.1.2.2.2.1
    unfold memsize
    omega

/-- Witness of the amended C7: operand `0xFF` with `X = 0x02` makes B5nn load the
byte at `0x0101`. -/
theorem C7_witness_address_0x0101 :
    state_zp_wrap.wf ∧ (0xFF : Nat) < 256 ∧
    (handle_opcode_B5nn state_zp_wrap 0xFF).reg.A = state_zp_wrap.memmap.mem 0x0101 :=
  ⟨state_zp_wrap_wf, by decide,
    (C7_zero_page_indexed_address state_zp_wrap 0xFF state_zp_wrap_wf (by decide)).1⟩

/-- C8: the absolute-indexed handlers BDnnnn, B9nnnn, BEnnnn, BCnnnn, 9Dnnnn and
99nnnn access the cell `(nnnn + index) mod 65536`. -/
theorem C8_absolute_indexed_address (c : cpu_6502) (nnnn : Nat) (hc : c.wf) :
    (handle_opcode_BDnnnn c nnnn).reg.A = c.memmap.mem ((nnnn + c.reg.X) % 65536) ∧
    (handle_opcode_B9nnnn c nnnn).reg.A = c.memmap.mem ((nnnn + c.reg.Y) % 65536) ∧
    (handle_opcode_BEnnnn c nnnn).reg.X = c.memmap.mem ((nnnn + c.reg.Y) % 65536) ∧
    (handle_opcode_BCnnnn c nnnn).reg.Y = c.memmap.mem ((nnnn + c.reg.X) % 65536) ∧
    ((handle_opcode_9Dnnnn c nnnn).memmap.readByte ((nnnn + c.reg.X) % 65536) = c.reg.A ∧
      (∀ b : Nat, b < 65536 → b ≠ (nnnn + c.reg.X) % 65536 →
        (handle_opcode_9Dnnnn c nnnn).memmap.readByte b = c.memmap.readByte b)) ∧
    ((handle_opcode_99nnnn c nnnn).memmap.readByte ((nnnn + c.reg.Y) % 65536) = c.reg.A ∧
      (∀ b : Nat, b < 65536 → b ≠ (nnnn + c.reg.Y) % 65536 →
        (handle_opcode_99nnnn c nnnn).memmap.readByte b = c.memmap.readByte b)) := by
  refine ⟨handle_opcode_BDnnnn_value c nnnn hc, handle_opcode_B9nnnn_value c nnnn hc,
    handle_opcode_BEnnnn_value c nnnn hc, handle_opcode_BCnnnn_value c nnnn hc, ?_, ?_⟩
  · have eA : c.reg.A % 256 = c.reg.A := Nat.mod_eq_of_lt hc.1.2.2.2.2.1
    refine ⟨?_, ?_⟩
    · exact (memory_map.writeByte_read_eq c.memmap (nnnn % 65536 + c.reg.X) c.reg.A _
        (by omega)).trans eA
    · intro b hb hne
      exact memory_map.writeByte_read_other c.memmap (nnnn % 65536 + c.reg.X) c.reg.A b
        (by omega)
  · have eA : c.reg.A % 256 = c.reg.A := Nat.mod_eq_of_lt hc.1.2.2.2.2.1
    refine ⟨?_, ?_⟩
    · exact (memory_map.writeByte_read_eq c.memmap (nnnn % 65536 + c.reg.Y) c.reg.A _
        (by omega)).trans eA
    · intro b hb hne
      exact memory_map.writeByte_read_other c.memmap (nnnn % 65536 + c.reg.Y) c.reg.A b
        (by omega)

/-- Witness of C8: operand `0xFFFF` with index `0x01` accesses address `0x0000`:
BDnnnn loads the byte stored there (`0x77`) and 9Dnnnn stores `A = 0x55` there. -/
theorem C8_witness_wrap_to_zero :
    state_abs_wrap.wf ∧ (0xFFFF + state_abs_wrap.reg.X) % 65536 = 0x0000 ∧
    (handle_opcode_BDnnnn state_abs_wrap 0xFFFF).reg.A = 0x77 ∧
    (handle_opcode_9Dnnnn state_abs_wrap 0xFFFF).memmap.readByte 0x0000 = 0x55 :=
  have h := C8_absolute_indexed_address state_abs_wrap 0xFFFF state_abs_wrap_wf
  ⟨state_abs_wrap_wf, by decide, h.1.trans (by decide), h.2.2.2.2.1.1⟩

/-! ## Indirect addressing through a pointer in memory -/

/-- C9, refuted as stated: with `memory[0x0020] = 0x30`, `memory[0x0021] = 0x40`,
`Y = 0x01`, `memory[0x0031] = 0xAA` and `memory[0x4031] = 0xBB`, handler B1nn with
operand `0x20` does not load the byte at the little-endian pointer plus `Y`
(`0x4031`); it loads `0xAA`, the byte at `0x0031`. -/
theorem C9_counterexample_single_byte_pointer :
    state_ind_y.memmap.readByte 0x20 + 256 * state_ind_y.memmap.readByte 0x21
      + state_ind_y.reg.Y = 0x4031 ∧
    (handle_opcode_B1nn state_ind_y 0x20).reg.A = 0xAA ∧
    ¬ ((handle_opcode_B1nn state_ind_y 0x20).reg.A =
        state_ind_y.memmap.readByte
          (state_ind_y.memmap.readByte 0x20 + 256 * state_ind_y.memmap.readByte 0x21
            + state_ind_y.reg.Y)) := by
  decide

/-- C9, amended: after handler B1nn (`MOV A, [[nn] + Y]`) the accumulator is the
memory byte at address `memory[nn] + Y`, the pointer being the single byte stored
at `nn`. -/
theorem C9_B1nn_loads_through_byte_pointer (c : cpu_6502) (nn : Nat)
    (hc : c.wf) (hnn : nn < 256) :
    (handle_opcode_B1nn c nn).reg.A = c.memmap.readByte (c.memmap.readByte nn + c.reg.Y) ∧
    (handle_opcode_B1nn c nn).reg.A = c.memmap.mem (c.memmap.mem nn + c.reg.Y) := by
  have h := handle_opcode_B1nn_value c nn hc hnn
  refine ⟨?_, h⟩
  rw [h, memory_map.readByte_eq, memory_map.readByte_eq]
  have hlt : c.memmap.mem nn < 256 := hc.2 nn (by unfold memsize; omega)
  have hY : c.reg.Y < 256 := hc.1.2.2.2.1
  congr 1
  rw [Nat.mod_eq_of_lt (show nn < 65536 by omega)]
  omega

/-- Witness of the amended C9: in the scenario `memory[0x0020] = 0x30`,
`memory[0x0021] = 0x40`, `Y = 0x01`, operand `0x20`, the accumulator becomes
`memory[0x0031]`. -/
theorem C9_witness_scenario :
    state_ind_y.wf ∧ (0x20 : Nat) < 256 ∧
    (handle_opcode_B1nn state_ind_y 0x20).reg.A = state_ind_y.memmap.mem 0x0031 :=
  ⟨state_ind_y_wf, by decide,
    (C9_B1nn_loads_through_byte_pointer state_ind_y 0x20 state_ind_y_wf (by decide)).2⟩

/-- C10: handler 91nn (`MOV [[nn] + Y], A`) started with `A = 0x55`, `X = 0x01`,
`Y = 0x02`, `memory[0x0020] = 0x30`, `memory[0x0021] = 0x40` and operand `0x20`
leaves the byte at `memory[0x20] + Y = 0x32` at zero and writes `0x55` at `0x40`,
the address held in `memory[0x20 + X]`. -/
theorem C10_91nn_writes_through_X_pointer :
    state_ind_store.wf ∧
    state_ind_store.memmap.readByte 0x20 + state_ind_store.reg.Y = 0x32 ∧
    (handle_opcode_91nn state_ind_store 0x20).memmap.readByte 0x32 = 0x00 ∧
    state_ind_store.memmap.readByte 0x40 = 0x00 ∧
    (handle_opcode_91nn state_ind_store 0x20).memmap.readByte 0x40 = 0x55 :=
  ⟨state_ind_store_wf, by decide, by decide, by decide, by decide⟩

/-- Handler A1nn loads through the byte stored at `nn + X`. -/
theorem handle_opcode_A1nn_value (c : cpu_6502) (nn : Nat) (hc : c.wf) (hnn : nn < 256) :
    (handle_opcode_A1nn c nn).reg.A = c.memmap.mem (c.memmap.mem (nn + c.reg.X)) := by
  obtain ⟨⟨-, -, hX, -⟩, hm⟩ := hc
  have hp : c.memmap.readByte (nn % 256 + c.reg.X) = c.memmap.mem (nn + c.reg.X) := by
    rw [memory_map.readByte_eq]
    congr 1
    omega
  have hlt : c.memmap.mem (nn + c.reg.X) < 256 := hp ▸ memory_map.readByte_lt _ hm _
  show c.memmap.readByte (c.memmap.readByte (nn % 256 + c.reg.X)) % 256 = _
  rw [Nat.mod_eq_of_lt (memory_map.readByte_lt _ hm _), hp, memory_map.readByte_eq]
  congr 1
  omega

theorem state_ind_x_wf : state_ind_x.wf := by
  refine ⟨by decide, fun a _ => ?_⟩
  simp only [state_ind_x]
  repeat' split
  all_goals omega

set_option maxRecDepth 20000 in
/-- C11, refuted as stated: with operand `0xFF` and `X = 0x02` handler A1nn
fetches its pointer byte at `0xFF + 0x02 = 0x0101`, outside the zero page, and
loads `0xBB = memory[memory[0x0101]]`; no pointer byte taken from an address in
`0x0000..0x00FF` of this memory leads to that value. -/
theorem C11_counterexample_pointer_outside_zero_page :
    0xFF + state_ind_x.reg.X = 0x0101 ∧
    (handle_opcode_A1nn state_ind_x 0xFF).reg.A = 0xBB ∧
    ¬ (∃ z : Nat, z < 256 ∧
        (handle_opcode_A1nn state_ind_x 0xFF).reg.A =
          state_ind_x.memmap.readByte (state_ind_x.memmap.readByte z)) := by
  decide

/-- C11, amended: after handler A1nn (`MOV A, [[nn + X]]`) the accumulator is
`memory[p]` with the pointer byte `p = memory[nn + X]`, and the pointer byte is
fetched at address `nn + X` itself, which the reduction modulo the memory size
leaves unchanged and which lies in the zero page only when `nn + X < 256`. -/
theorem C11_A1nn_loads_through_pointer_at_nn_plus_X (c : cpu_6502) (nn : Nat)
    (hc : c.wf) (hnn : nn < 256) :
    (handle_opcode_A1nn c nn).reg.A =
      c.memmap.readByte (c.memmap.readByte (nn + c.reg.X)) ∧
    c.memmap.readByte (nn + c.reg.X) = c.memmap.mem (nn + c.reg.X) ∧
    (nn + c.reg.X) % memsize = nn + c.reg.X := by
  have hX : c.reg.X < 256 := hc.1.2.2.1
  have e : (nn + c.reg.X) % 65536 = nn + c.reg.X := Nat.mod_eq_of_lt (by omega)
  have hp : c.memmap.readByte (nn + c.reg.X) = c.memmap.mem (nn + c.reg.X) := by
    rw [memory_map.readByte_eq, e]
  have hlt : c.memmap.mem (nn + c.reg.X) < 256 := hp ▸ memory_map.readByte_lt _ hc.2 _
  refine ⟨?_, hp, ?_⟩
  · rw [handle_opcode_A1nn_value c nn hc hnn, hp, memory_map.readByte_eq,
      Nat.mod_eq_of_lt (show c.memmap.mem (nn + c.reg.X) < 65536 by omega)]
  · unfold memsize
    exact e

/-- Witness of the amended C11: operand `0xFF` with `X = 0x02` loads
`memory[memory[0x0101]] = 0xBB`. -/
theorem C11_witness_pointer_at_0x0101 :
    state_ind_x.wf ∧ (0xFF : Nat) < 256 ∧
    (handle_opcode_A1nn state_ind_x 0xFF).reg.A = 0xBB :=
  ⟨state_ind_x_wf, by decide,
    (C11_A1nn_loads_through_pointer_at_nn_plus_X state_ind_x 0xFF state_ind_x_wf
      (by decide)).1.trans (by decide)⟩

/-! ## Byte and word access to the memory map -/

/-- C12: `writeByte(a, v)` returns `v`, a following `readByte(a)` returns `v`, and
`readByte(b)` at every other address `b` returns what it returned before. -/
theorem C12_writeByte_then_readByte (m : memory_map) (a v : Nat)
    (ha : a < 65536) (hv : v < 256) :
    (m.writeByte a v).1 = v ∧
    (m.writeByte a v).2.readByte a = v ∧
    (∀ b : Nat, b < 65536 → b ≠ a → (m.writeByte a v).2.readByte b = m.readByte b) := by
  have ev : v % 256 = v := Nat.mod_eq_of_lt hv
  refine ⟨ev, (memory_map.writeByte_read_same m a v).trans ev, ?_⟩
  intro b hb hne
  exact memory_map.writeByte_read_other m a v b (by omega)

/-- Witness of C12: writing `0x56` at `0x1234` into the all-zero memory. -/
theorem C12_witness_write_0x56_at_0x1234 :
    (0x1234 : Nat) < 65536 ∧ (0x56 : Nat) < 256 ∧
    (mem_zero.writeByte 0x1234 0x56).1 = 0x56 ∧
    (mem_zero.writeByte 0x1234 0x56).2.readByte 0x1234 = 0x56 :=
  have h := C12_writeByte_then_readByte mem_zero 0x1234 0x56 (by decide) (by decide)
  ⟨by decide, by decide, h.1, h.2.1⟩

theorem mem_word_wf : mem_word.wf := by
  intro a _
  simp only [mem_word]
  repeat' split
  all_goals omega

/-- Away from the last address the word access behaves as a little-endian pair of
bytes: for `a + 1 < memsize` a word written at `a` is read back, low byte at `a`
and high byte at `a + 1`. -/
theorem memory_map.writeWord_readWord_of_lt (m : memory_map) (a v : Nat)
    (ha : a + 1 < memsize) (hv : v < 65536) :
    ∃ m2 : memory_map, m.writeWord a v = some (v, m2) ∧
      m2.readWord a = some v ∧
      m2.readByte a = v % 256 ∧ m2.readByte (a + 1) = v / 256 := by
  unfold memsize at ha
  have e1 : a % 65536 = a := Nat.mod_eq_of_lt (by omega)
  have e2 : (a + 1) % 65536 = a + 1 := Nat.mod_eq_of_lt ha
  have e3 : v % 65536 = v := Nat.mod_eq_of_lt hv
  have h1 : a < 65536 := by omega
  refine ⟨{ mem := fun x => if x = a + 1 then v / 256
              else if x = a then v % 256 else m.mem x }, ?_, ?_, ?_, ?_⟩
  · simp only [memory_map.writeWord, memory_map.setByteAt, memsize, e1, e3, h1, ha,
      if_true, Option.bind]
  · simp only [memory_map.readWord, memory_map.byteAt, memsize, e1, h1, ha, if_true,
      Option.bind]
    simp
    omega
  · simp [memory_map.readByte, memsize, e1]
  · simp [memory_map.readByte, memsize, e2]

/-- C13: on the all-zero memory `writeWord(0xFFFF, 0x1234)` has no defined result:
its second byte would be stored at index `0xFFFF + 1 = memsize`, which is not an
index of the array, and the index is not wrapped to `0`. -/
theorem C13_writeWord_at_0xFFFF_leaves_the_array :
    0xFFFF % 65536 % memsize + 1 = memsize ∧
    (mem_zero.setByteAt (0xFFFF % 65536 % memsize + 1) (0x1234 / 256)).isNone = true ∧
    (mem_zero.writeWord 0xFFFF 0x1234).isNone = true := by
  decide

/-- C14: `readWord(0xFFFF)` touches index `0xFFFF + 1 = memsize`, which is not below
`memsize`, so it has no defined result, whereas the two bytes at `0xFFFF` and at
`(0xFFFF + 1) mod 65536 = 0` combine to `0x1234`. -/
theorem C14_readWord_at_0xFFFF_reads_past_the_array :
    mem_word.wf ∧
    ¬ (0xFFFF % 65536 % memsize + 1 < memsize) ∧
    (mem_word.byteAt (0xFFFF % 65536 % memsize + 1)).isNone = true ∧
    (mem_word.readWord 0xFFFF).isNone = true ∧
    mem_word.readByte 0xFFFF + 256 * mem_word.readByte ((0xFFFF + 1) % 65536) = 0x1234 :=
  ⟨mem_word_wf, by decide, by decide, by decide, by decide⟩

/-! ## The width of the Negative test -/

/-- C15: `checkFlagN` on the 16-bit result `0x8000` (bit 15 set) leaves Negative at
0, and on the 16-bit result `0x0002` (bit 15 clear) sets it to 1: for a two-byte
operand the bit tested is bit `sizeof(T) - 1 = 1`.  For the 8-bit result `0x80`
(bit 7 set) Negative is 0 as well, the bit tested being bit 0. -/
theorem C15_checkFlagN_tests_bit_sizeof_minus_one :
    (0x8000 >>> 15) &&& 1 = 1 ∧
    (cpu_6502_register.checkFlagN sizeof_uint16_t reg_zero 0x8000).flagN = 0 ∧
    (0x0002 >>> 15) &&& 1 = 0 ∧
    (cpu_6502_register.checkFlagN sizeof_uint16_t reg_zero 0x0002).flagN = 1 ∧
    (0x80 >>> 7) &&& 1 = 1 ∧
    (cpu_6502_register.checkFlagN sizeof_uint8_t reg_zero 0x80).flagN = 0 := by
  decide

/-! ## Register accessors -/

/-- C16: for each register R among A, X, Y, S (8 bits) and PC (16 bits), after
`setR(v)` the getter `getR()` returns `v`, and the four other registers and all
seven flags read as before. -/
theorem C16_setter_then_getter (r : cpu_6502_register) (v w : Nat)
    (hv : v < 256) (hw : w < 65536) :
    ((r.setA v).2.getA = v ∧
      (r.setA v).2.getX = r.getX ∧
      (r.setA v).2.getY = r.getY ∧
      (r.setA v).2.getS = r.getS ∧
      (r.setA v).2.getPC = r.getPC ∧
      (r.setA v).2.getFlagN = r.getFlagN ∧
      (r.setA v).2.getFlagV = r.getFlagV ∧
      (r.setA v).2.getFlagB = r.getFlagB ∧
      (r.setA v).2.getFlagD = r.getFlagD ∧
      (r.setA v).2.getFlagI = r.getFlagI ∧
      (r.setA v).2.getFlagZ = r.getFlagZ ∧
      (r.setA v).2.getFlagC = r.getFlagC) ∧
    ((r.setX v).2.getX = v ∧
      (r.setX v).2.getA = r.getA ∧
      (r.setX v).2.getY = r.getY ∧
      (r.setX v).2.getS = r.getS ∧
      (r.setX v).2.getPC = r.getPC ∧
      (r.setX v).2.getFlagN = r.getFlagN ∧
      (r.setX v).2.getFlagV = r.getFlagV ∧
      (r.setX v).2.getFlagB = r.getFlagB ∧
      (r.setX v).2.getFlagD = r.getFlagD ∧
      (r.setX v).2.getFlagI = r.getFlagI ∧
      (r.setX v).2.getFlagZ = r.getFlagZ ∧
      (r.setX v).2.getFlagC = r.getFlagC) ∧
    ((r.setY v).2.getY = v ∧
      (r.setY v).2.getA = r.getA ∧
      (r.setY v).2.getX = r.getX ∧
      (r.setY v).2.getS = r.getS ∧
      (r.setY v).2.getPC = r.getPC ∧
      (r.setY v).2.getFlagN = r.getFlagN ∧
      (r.setY v).2.getFlagV = r.getFlagV ∧
      (r.setY v).2.getFlagB = r.getFlagB ∧
      (r.setY v).2.getFlagD = r.getFlagD ∧
      (r.setY v).2.getFlagI = r.getFlagI ∧
      (r.setY v).2.getFlagZ = r.getFlagZ ∧
      (r.setY v).2.getFlagC = r.getFlagC) ∧
    ((r.setS v).2.getS = v ∧
      (r.setS v).2.getA = r.getA ∧
      (r.setS v).2.getX = r.getX ∧
      (r.setS v).2.getY = r.getY ∧
      (r.setS v).2.getPC = r.getPC ∧
      (r.setS v).2.getFlagN = r.getFlagN ∧
      (r.setS v).2.getFlagV = r.getFlagV ∧
      (r.setS v).2.getFlagB = r.getFlagB ∧
      (r.setS v).2.getFlagD = r.getFlagD ∧
      (r.setS v).2.getFlagI = r.getFlagI ∧
      (r.setS v).2.getFlagZ = r.getFlagZ ∧
      (r.setS v).2.getFlagC = r.getFlagC) ∧
    ((r.setPC w).2.getPC = w ∧
      (r.setPC w).2.getA = r.getA ∧
      (r.setPC w).2.getX = r.getX ∧
      (r.setPC w).2.getY = r.getY ∧
      (r.setPC w).2.getS = r.getS ∧
      (r.setPC w).2.getFlagN = r.getFlagN ∧
      (r.setPC w).2.getFlagV = r.getFlagV ∧
      (r.setPC w).2.getFlagB = r.getFlagB ∧
      (r.setPC w).2.getFlagD = r.getFlagD ∧
      (r.setPC w).2.getFlagI = r.getFlagI ∧
      (r.setPC w).2.getFlagZ = r.getFlagZ ∧
      (r.setPC w).2.getFlagC = r.getFlagC) := by
  have ev : v % 256 = v := Nat.mod_eq_of_lt hv
  have ew : w % 65536 = w := Nat.mod_eq_of_lt hw
  simp [cpu_6502_register.setA, cpu_6502_register.setX, cpu_6502_register.setY,
    cpu_6502_register.setS, cpu_6502_register.setPC, cpu_6502_register.getA,
    cpu_6502_register.getX, cpu_6502_register.getY, cpu_6502_register.getS,
    cpu_6502_register.getPC, cpu_6502_register.getFlagN, cpu_6502_register.getFlagV,
    cpu_6502_register.getFlagB, cpu_6502_register.getFlagD, cpu_6502_register.getFlagI,
    cpu_6502_register.getFlagZ, cpu_6502_register.getFlagC, ev, ew]

/-- Witness of C16: `setPC(0x1234)` followed by `getPC()` gives the full 16-bit
value `0x1234`, and `setA(0x9C)` followed by `getA()` gives `0x9C`. -/
theorem C16_witness_setPC_0x1234 :
    (0x9C : Nat) < 256 ∧ (0x1234 : Nat) < 65536 ∧
    (reg_mixed.setPC 0x1234).2.getPC = 0x1234 ∧
    (reg_mixed.setA 0x9C).2.getA = 0x9C :=
  have h := C16_setter_then_getter reg_mixed 0x9C 0x1234 (by decide) (by decide)
  ⟨by decide, by decide, h.2.2.2.2.1, h.1.1⟩

/-! ## What the handlers leave alone -/

/-- C17: each load and register-transfer handler (A8 to BCnnnn, 9A included)
leaves the whole memory, every register other than its destination, and the
flags Carry, Interrupt-disable, Decimal-mode, Break and Overflow as they were. -/
theorem C17_load_writes_one_destination (c : cpu_6502) (nn nnnn : Nat) :
    ((handle_opcode_A8 c).memmap = c.memmap ∧
      (handle_opcode_A8 c).reg.A = c.reg.A ∧
      (handle_opcode_A8 c).reg.X = c.reg.X ∧
      (handle_opcode_A8 c).reg.S = c.reg.S ∧
      (handle_opcode_A8 c).reg.PC = c.reg.PC ∧
      (handle_opcode_A8 c).reg.flagC = c.reg.flagC ∧
      (handle_opcode_A8 c).reg.flagI = c.reg.flagI ∧
      (handle_opcode_A8 c).reg.flagD = c.reg.flagD ∧
      (handle_opcode_A8 c).reg.flagB = c.reg.flagB ∧
      (handle_opcode_A8 c).reg.flagV = c.reg.flagV) ∧
    ((handle_opcode_AA c).memmap = c.memmap ∧
      (handle_opcode_AA c).reg.A = c.reg.A ∧
      (handle_opcode_AA c).reg.Y = c.reg.Y ∧
      (handle_opcode_AA c).reg.S = c.reg.S ∧
      (handle_opcode_AA c).reg.PC = c.reg.PC ∧
      (handle_opcode_AA c).reg.flagC = c.reg.flagC ∧
      (handle_opcode_AA c).reg.flagI = c.reg.flagI ∧
      (handle_opcode_AA c).reg.flagD = c.reg.flagD ∧
      (handle_opcode_AA c).reg.flagB = c.reg.flagB ∧
      (handle_opcode_AA c).reg.flagV = c.reg.flagV) ∧
    ((handle_opcode_BA c).memmap = c.memmap ∧
      (handle_opcode_BA c).reg.A = c.reg.A ∧
      (handle_opcode_BA c).reg.Y = c.reg.Y ∧
      (handle_opcode_BA c).reg.S = c.reg.S ∧
      (handle_opcode_BA c).reg.PC = c.reg.PC ∧
      (handle_opcode_BA c).reg.flagC = c.reg.flagC ∧
      (handle_opcode_BA c).reg.flagI = c.reg.flagI ∧
      (handle_opcode_BA c).reg.flagD = c.reg.flagD ∧
      (handle_opcode_BA c).reg.flagB = c.reg.flagB ∧
      (handle_opcode_BA c).reg.flagV = c.reg.flagV) ∧
    ((handle_opcode_98 c).memmap = c.memmap ∧
      (handle_opcode_98 c).reg.X = c.reg.X ∧
      (handle_opcode_98 c).reg.Y = c.reg.Y ∧
      (handle_opcode_98 c).reg.S = c.reg.S ∧
      (handle_opcode_98 c).reg.PC = c.reg.PC ∧
      (handle_opcode_98 c).reg.flagC = c.reg.flagC ∧
      (handle_opcode_98 c).reg.flagI = c.reg.flagI ∧
      (handle_opcode_98 c).reg.flagD = c.reg.flagD ∧
      (handle_opcode_98 c).reg.flagB = c.reg.flagB ∧
      (handle_opcode_98 c).reg.flagV = c.reg.flagV) ∧
    ((handle_opcode_8A c).memmap = c.memmap ∧
      (handle_opcode_8A c).reg.X = c.reg.X ∧
      (handle_opcode_8A c).reg.Y = c.reg.Y ∧
      (handle_opcode_8A c).reg.S = c.reg.S ∧
      (handle_opcode_8A c).reg.PC = c.reg.PC ∧
      (handle_opcode_8A c).reg.flagC = c.reg.flagC ∧
      (handle_opcode_8A c).reg.flagI = c.reg.flagI ∧
      (handle_opcode_8A c).reg.flagD = c.reg.flagD ∧
      (handle_opcode_8A c).reg.flagB = c.reg.flagB ∧
      (handle_opcode_8A c).reg.flagV = c.reg.flagV) ∧
    ((handle_opcode_9A c).memmap = c.memmap ∧
      (handle_opcode_9A c).reg.A = c.reg.A ∧
      (handle_opcode_9A c).reg.X = c.reg.X ∧
      (handle_opcode_9A c).reg.Y = c.reg.Y ∧
      (handle_opcode_9A c).reg.PC = c.reg.PC ∧
      (handle_opcode_9A c).reg.flagC = c.reg.flagC ∧
      (handle_opcode_9A c).reg.flagI = c.reg.flagI ∧
      (handle_opcode_9A c).reg.flagD = c.reg.flagD ∧
      (handle_opcode_9A c).reg.flagB = c.reg.flagB ∧
      (handle_opcode_9A c).reg.flagV = c.reg.flagV) ∧
    ((handle_opcode_A9nn c nn).memmap = c.memmap ∧
      (handle_opcode_A9nn c nn).reg.X = c.reg.X ∧
      (handle_opcode_A9nn c nn).reg.Y = c.reg.Y ∧
      (handle_opcode_A9nn c nn).reg.S = c.reg.S ∧
      (handle_opcode_A9nn c nn).reg.PC = c.reg.PC ∧
      (handle_opcode_A9nn c nn).reg.flagC = c.reg.flagC ∧
      (handle_opcode_A9nn c nn).reg.flagI = c.reg.flagI ∧
      (handle_opcode_A9nn c nn).reg.flagD = c.reg.flagD ∧
      (handle_opcode_A9nn c nn).reg.flagB = c.reg.flagB ∧
      (handle_opcode_A9nn c nn).reg.flagV = c.reg.flagV) ∧
    ((handle_opcode_A2nn c nn).memmap = c.memmap ∧
      (handle_opcode_A2nn c nn).reg.A = c.reg.A ∧
      (handle_opcode_A2nn c nn).reg.Y = c.reg.Y ∧
      (handle_opcode_A2nn c nn).reg.S = c.reg.S ∧
      (handle_opcode_A2nn c nn).reg.PC = c.reg.PC ∧
      (handle_opcode_A2nn c nn).reg.flagC = c.reg.flagC ∧
      (handle_opcode_A2nn c nn).reg.flagI = c.reg.flagI ∧
      (handle_opcode_A2nn c nn).reg.flagD = c.reg.flagD ∧
      (handle_opcode_A2nn c nn).reg.flagB = c.reg.flagB ∧
      (handle_opcode_A2nn c nn).reg.flagV = c.reg.flagV) ∧
    ((handle_opcode_A0nn c nn).memmap = c.memmap ∧
      (handle_opcode_A0nn c nn).reg.A = c.reg.A ∧
      (handle_opcode_A0nn c nn).reg.X = c.reg.X ∧
      (handle_opcode_A0nn c nn).reg.S = c.reg.S ∧
      (handle_opcode_A0nn c nn).reg.PC = c.reg.PC ∧
      (handle_opcode_A0nn c nn).reg.flagC = c.reg.flagC ∧
      (handle_opcode_A0nn c nn).reg.flagI = c.reg.flagI ∧
      (handle_opcode_A0nn c nn).reg.flagD = c.reg.flagD ∧
      (handle_opcode_A0nn c nn).reg.flagB = c.reg.flagB ∧
      (handle_opcode_A0nn c nn).reg.flagV = c.reg.flagV) ∧
    ((handle_opcode_A5nn c nn).memmap = c.memmap ∧
      (handle_opcode_A5nn c nn).reg.X = c.reg.X ∧
      (handle_opcode_A5nn c nn).reg.Y = c.reg.Y ∧
      (handle_opcode_A5nn c nn).reg.S = c.reg.S ∧
      (handle_opcode_A5nn c nn).reg.PC = c.reg.PC ∧
      (handle_opcode_A5nn c nn).reg.flagC = c.reg.flagC ∧
      (handle_opcode_A5nn c nn).reg.flagI = c.reg.flagI ∧
      (handle_opcode_A5nn c nn).reg.flagD = c.reg.flagD ∧
      (handle_opcode_A5nn c nn).reg.flagB = c.reg.flagB ∧
      (handle_opcode_A5nn c nn).reg.flagV = c.reg.flagV) ∧
    ((handle_opcode_B5nn c nn).memmap = c.memmap ∧
      (handle_opcode_B5nn c nn).reg.X = c.reg.X ∧
      (handle_opcode_B5nn c nn).reg.Y = c.reg.Y ∧
      (handle_opcode_B5nn c nn).reg.S = c.reg.S ∧
      (handle_opcode_B5nn c nn).reg.PC = c.reg.PC ∧
      (handle_opcode_B5nn c nn).reg.flagC = c.reg.flagC ∧
      (handle_opcode_B5nn c nn).reg.flagI = c.reg.flagI ∧
      (handle_opcode_B5nn c nn).reg.flagD = c.reg.flagD ∧
      (handle_opcode_B5nn c nn).reg.flagB = c.reg.flagB ∧
      (handle_opcode_B5nn c nn).reg.flagV = c.reg.flagV) ∧
    ((handle_opcode_ADnnnn c nnnn).memmap = c.memmap ∧
      (handle_opcode_ADnnnn c nnnn).reg.X = c.reg.X ∧
      (handle_opcode_ADnnnn c nnnn).reg.Y = c.reg.Y ∧
      (handle_opcode_ADnnnn c nnnn).reg.S = c.reg.S ∧
      (handle_opcode_ADnnnn c nnnn).reg.PC = c.reg.PC ∧
      (handle_opcode_ADnnnn c nnnn).reg.flagC = c.reg.flagC ∧
      (handle_opcode_ADnnnn c nnnn).reg.flagI = c.reg.flagI ∧
      (handle_opcode_ADnnnn c nnnn).reg.flagD = c.reg.flagD ∧
      (handle_opcode_ADnnnn c nnnn).reg.flagB = c.reg.flagB ∧
      (handle_opcode_ADnnnn c nnnn).reg.flagV = c.reg.flagV) ∧
    ((handle_opcode_BDnnnn c nnnn).memmap = c.memmap ∧
      (handle_opcode_BDnnnn c nnnn).reg.X = c.reg.X ∧
      (handle_opcode_BDnnnn c nnnn).reg.Y = c.reg.Y ∧
      (handle_opcode_BDnnnn c nnnn).reg.S = c.reg.S ∧
      (handle_opcode_BDnnnn c nnnn).reg.PC = c.reg.PC ∧
      (handle_opcode_BDnnnn c nnnn).reg.flagC = c.reg.flagC ∧
      (handle_opcode_BDnnnn c nnnn).reg.flagI = c.reg.flagI ∧
      (handle_opcode_BDnnnn c nnnn).reg.flagD = c.reg.flagD ∧
      (handle_opcode_BDnnnn c nnnn).reg.flagB = c.reg.flagB ∧
      (handle_opcode_BDnnnn c nnnn).reg.flagV = c.reg.flagV) ∧
    ((handle_opcode_B9nnnn c nnnn).memmap = c.memmap ∧
      (handle_opcode_B9nnnn c nnnn).reg.X = c.reg.X ∧
      (handle_opcode_B9nnnn c nnnn).reg.Y = c.reg.Y ∧
      (handle_opcode_B9nnnn c nnnn).reg.S = c.reg.S ∧
      (handle_opcode_B9nnnn c nnnn).reg.PC = c.reg.PC ∧
      (handle_opcode_B9nnnn c nnnn).reg.flagC = c.reg.flagC ∧
      (handle_opcode_B9nnnn c nnnn).reg.flagI = c.reg.flagI ∧
      (handle_opcode_B9nnnn c nnnn).reg.flagD = c.reg.flagD ∧
      (handle_opcode_B9nnnn c nnnn).reg.flagB = c.reg.flagB ∧
      (handle_opcode_B9nnnn c nnnn).reg.flagV = c.reg.flagV) ∧
    ((handle_opcode_A1nn c nn).memmap = c.memmap ∧
      (handle_opcode_A1nn c nn).reg.X = c.reg.X ∧
      (handle_opcode_A1nn c nn).reg.Y = c.reg.Y ∧
      (handle_opcode_A1nn c nn).reg.S = c.reg.S ∧
      (handle_opcode_A1nn c nn).reg.PC = c.reg.PC ∧
      (handle_opcode_A1nn c nn).reg.flagC = c.reg.flagC ∧
      (handle_opcode_A1nn c nn).reg.flagI = c.reg.flagI ∧
      (handle_opcode_A1nn c nn).reg.flagD = c.reg.flagD ∧
      (handle_opcode_A1nn c nn).reg.flagB = c.reg.flagB ∧
      (handle_opcode_A1nn c nn).reg.flagV = c.reg.flagV) ∧
    ((handle_opcode_B1nn c nn).memmap = c.memmap ∧
      (handle_opcode_B1nn c nn).reg.X = c.reg.X ∧
      (handle_opcode_B1nn c nn).reg.Y = c.reg.Y ∧
      (handle_opcode_B1nn c nn).reg.S = c.reg.S ∧
      (handle_opcode_B1nn c nn).reg.PC = c.reg.PC ∧
      (handle_opcode_B1nn c nn).reg.flagC = c.reg.flagC ∧
      (handle_opcode_B1nn c nn).reg.flagI = c.reg.flagI ∧
      (handle_opcode_B1nn c nn).reg.flagD = c.reg.flagD ∧
      (handle_opcode_B1nn c nn).reg.flagB = c.reg.flagB ∧
      (handle_opcode_B1nn c nn).reg.flagV = c.reg.flagV) ∧
    ((handle_opcode_A6nn c nn).memmap = c.memmap ∧
      (handle_opcode_A6nn c nn).reg.A = c.reg.A ∧
      (handle_opcode_A6nn c nn).reg.Y = c.reg.Y ∧
      (handle_opcode_A6nn c nn).reg.S = c.reg.S ∧
      (handle_opcode_A6nn c nn).reg.PC = c.reg.PC ∧
      (handle_opcode_A6nn c nn).reg.flagC = c.reg.flagC ∧
      (handle_opcode_A6nn c nn).reg.flagI = c.reg.flagI ∧
      (handle_opcode_A6nn c nn).reg.flagD = c.reg.flagD ∧
      (handle_opcode_A6nn c nn).reg.flagB = c.reg.flagB ∧
      (handle_opcode_A6nn c nn).reg.flagV = c.reg.flagV) ∧
    ((handle_opcode_B6nn c nn).memmap = c.memmap ∧
      (handle_opcode_B6nn c nn).reg.A = c.reg.A ∧
      (handle_opcode_B6nn c nn).reg.Y = c.reg.Y ∧
      (handle_opcode_B6nn c nn).reg.S = c.reg.S ∧
      (handle_opcode_B6nn c nn).reg.PC = c.reg.PC ∧
      (handle_opcode_B6nn c nn).reg.flagC = c.reg.flagC ∧
      (handle_opcode_B6nn c nn).reg.flagI = c.reg.flagI ∧
      (handle_opcode_B6nn c nn).reg.flagD = c.reg.flagD ∧
      (handle_opcode_B6nn c nn).reg.flagB = c.reg.flagB ∧
      (handle_opcode_B6nn c nn).reg.flagV = c.reg.flagV) ∧
    ((handle_opcode_AEnnnn c nnnn).memmap = c.memmap ∧
      (handle_opcode_AEnnnn c nnnn).reg.A = c.reg.A ∧
      (handle_opcode_AEnnnn c nnnn).reg.Y = c.reg.Y ∧
      (handle_opcode_AEnnnn c nnnn).reg.S = c.reg.S ∧
      (handle_opcode_AEnnnn c nnnn).reg.PC = c.reg.PC ∧
      (handle_opcode_AEnnnn c nnnn).reg.flagC = c.reg.flagC ∧
      (handle_opcode_AEnnnn c nnnn).reg.flagI = c.reg.flagI ∧
      (handle_opcode_AEnnnn c nnnn).reg.flagD = c.reg.flagD ∧
      (handle_opcode_AEnnnn c nnnn).reg.flagB = c.reg.flagB ∧
      (handle_opcode_AEnnnn c nnnn).reg.flagV = c.reg.flagV) ∧
    ((handle_opcode_BEnnnn c nnnn).memmap = c.memmap ∧
      (handle_opcode_BEnnnn c nnnn).reg.A = c.reg.A ∧
      (handle_opcode_BEnnnn c nnnn).reg.Y = c.reg.Y ∧
      (handle_opcode_BEnnnn c nnnn).reg.S = c.reg.S ∧
      (handle_opcode_BEnnnn c nnnn).reg.PC = c.reg.PC ∧
      (handle_opcode_BEnnnn c nnnn).reg.flagC = c.reg.flagC ∧
      (handle_opcode_BEnnnn c nnnn).reg.flagI = c.reg.flagI ∧
      (handle_opcode_BEnnnn c nnnn).reg.flagD = c.reg.flagD ∧
      (handle_opcode_BEnnnn c nnnn).reg.flagB = c.reg.flagB ∧
      (handle_opcode_BEnnnn c nnnn).reg.flagV = c.reg.flagV) ∧
    ((handle_opcode_A4nn c nn).memmap = c.memmap ∧
      (handle_opcode_A4nn c nn).reg.A = c.reg.A ∧
      (handle_opcode_A4nn c nn).reg.X = c.reg.X ∧
      (handle_opcode_A4nn c nn).reg.S = c.reg.S ∧
      (handle_opcode_A4nn c nn).reg.PC = c.reg.PC ∧
      (handle_opcode_A4nn c nn).reg.flagC = c.reg.flagC ∧
      (handle_opcode_A4nn c nn).reg.flagI = c.reg.flagI ∧
      (handle_opcode_A4nn c nn).reg.flagD = c.reg.flagD ∧
      (handle_opcode_A4nn c nn).reg.flagB = c.reg.flagB ∧
      (handle_opcode_A4nn c nn).reg.flagV = c.reg.flagV) ∧
    ((handle_opcode_B4nn c nn).memmap = c.memmap ∧
      (handle_opcode_B4nn c nn).reg.A = c.reg.A ∧
      (handle_opcode_B4nn c nn).reg.X = c.reg.X ∧
      (handle_opcode_B4nn c nn).reg.S = c.reg.S ∧
      (handle_opcode_B4nn c nn).reg.PC = c.reg.PC ∧
      (handle_opcode_B4nn c nn).reg.flagC = c.reg.flagC ∧
      (handle_opcode_B4nn c nn).reg.flagI = c.reg.flagI ∧
      (handle_opcode_B4nn c nn).reg.flagD = c.reg.flagD ∧
      (handle_opcode_B4nn c nn).reg.flagB = c.reg.flagB ∧
      (handle_opcode_B4nn c nn).reg.flagV = c.reg.flagV) ∧
    ((handle_opcode_ACnnnn c nnnn).memmap = c.memmap ∧
      (handle_opcode_ACnnnn c nnnn).reg.A = c.reg.A ∧
      (handle_opcode_ACnnnn c nnnn).reg.X = c.reg.X ∧
      (handle_opcode_ACnnnn c nnnn).reg.S = c.reg.S ∧
      (handle_opcode_ACnnnn c nnnn).reg.PC = c.reg.PC ∧
      (handle_opcode_ACnnnn c nnnn).reg.flagC = c.reg.flagC ∧
      (handle_opcode_ACnnnn c nnnn).reg.flagI = c.reg.flagI ∧
      (handle_opcode_ACnnnn c nnnn).reg.flagD = c.reg.flagD ∧
      (handle_opcode_ACnnnn c nnnn).reg.flagB = c.reg.flagB ∧
      (handle_opcode_ACnnnn c nnnn).reg.flagV = c.reg.flagV) ∧
    ((handle_opcode_BCnnnn c nnnn).memmap = c.memmap ∧
      (handle_opcode_BCnnnn c nnnn).reg.A = c.reg.A ∧
      (handle_opcode_BCnnnn c nnnn).reg.X = c.reg.X ∧
      (handle_opcode_BCnnnn c nnnn).reg.S = c.reg.S ∧
      (handle_opcode_BCnnnn c nnnn).reg.PC = c.reg.PC ∧
      (handle_opcode_BCnnnn c nnnn).reg.flagC = c.reg.flagC ∧
      (handle_opcode_BCnnnn c nnnn).reg.flagI = c.reg.flagI ∧
      (handle_opcode_BCnnnn c nnnn).reg.flagD = c.reg.flagD ∧
      (handle_opcode_BCnnnn c nnnn).reg.flagB = c.reg.flagB ∧
      (handle_opcode_BCnnnn c nnnn).reg.flagV = c.reg.flagV) :=
  ⟨
    ⟨rfl, rfl, rfl, rfl, rfl, rfl, rfl, rfl, rfl, rfl⟩,
    ⟨rfl, rfl, rfl, rfl, rfl, rfl, rfl, rfl, rfl, rfl⟩,
    ⟨rfl, rfl, rfl, rfl, rfl, rfl, rfl, rfl, rfl, rfl⟩,
    ⟨rfl, rfl, rfl, rfl, rfl, rfl, rfl, rfl, rfl, rfl⟩,
    ⟨rfl, rfl, rfl, rfl, rfl, rfl, rfl, rfl, rfl, rfl⟩,
    ⟨rfl, rfl, rfl, rfl, rfl, rfl, rfl, rfl, rfl, rfl⟩,
    ⟨rfl, rfl, rfl, rfl, rfl, rfl, rfl, rfl, rfl, rfl⟩,
    ⟨rfl, rfl, rfl, rfl, rfl, rfl, rfl, rfl, rfl, rfl⟩,
    ⟨rfl, rfl, rfl, rfl, rfl, rfl, rfl, rfl, rfl, rfl⟩,
    ⟨rfl, rfl, rfl, rfl, rfl, rfl, rfl, rfl, rfl, rfl⟩,
    ⟨rfl, rfl, rfl, rfl, rfl, rfl, rfl, rfl, rfl, rfl⟩,
    ⟨rfl, rfl, rfl, rfl, rfl, rfl, rfl, rfl, rfl, rfl⟩,
    ⟨rfl, rfl, rfl, rfl, rfl, rfl, rfl, rfl, rfl, rfl⟩,
    ⟨rfl, rfl, rfl, rfl, rfl, rfl, rfl, rfl, rfl, rfl⟩,
    ⟨rfl, rfl, rfl, rfl, rfl, rfl, rfl, rfl, rfl, rfl⟩,
    ⟨rfl, rfl, rfl, rfl, rfl, rfl, rfl, rfl, rfl, rfl⟩,
    ⟨rfl, rfl, rfl, rfl, rfl, rfl, rfl, rfl, rfl, rfl⟩,
    ⟨rfl, rfl, rfl, rfl, rfl, rfl, rfl, rfl, rfl, rfl⟩,
    ⟨rfl, rfl, rfl, rfl, rfl, rfl, rfl, rfl, rfl, rfl⟩,
    ⟨rfl, rfl, rfl, rfl, rfl, rfl, rfl, rfl, rfl, rfl⟩,
    ⟨rfl, rfl, rfl, rfl, rfl, rfl, rfl, rfl, rfl, rfl⟩,
    ⟨rfl, rfl, rfl, rfl, rfl, rfl, rfl, rfl, rfl, rfl⟩,
    ⟨rfl, rfl, rfl, rfl, rfl, rfl, rfl, rfl, rfl, rfl⟩,
    ⟨rfl, rfl, rfl, rfl, rfl, rfl, rfl, rfl, rfl, rfl⟩⟩

/-- C18: handler 86nn has an empty body: the state after it, memory, registers
and flags, is the state before, and in particular the byte at `nn` is the one
that was there. -/
theorem C18_86nn_changes_nothing (c : cpu_6502) (nn : Nat) :
    handle_opcode_86nn c nn = c ∧
    (handle_opcode_86nn c nn).memmap.readByte nn = c.memmap.readByte nn :=
  ⟨rfl, rfl⟩

/-- C19: handler 91nn produces the same state as handler 81nn; its result does not
depend on `Y` (replacing `Y` by any `y` before the handler gives the same memory),
and the accumulator is written at address `memory[nn + X]` and nowhere else. -/
theorem C19_91nn_same_as_81nn (c : cpu_6502) (nn y : Nat) (hc : c.wf) (hnn : nn < 256) :
    handle_opcode_91nn c nn = handle_opcode_81nn c nn ∧
    (handle_opcode_91nn { c with reg := { c.reg with Y := y } } nn).memmap =
      (handle_opcode_91nn c nn).memmap ∧
    (handle_opcode_91nn c nn).memmap.readByte (c.memmap.mem (nn + c.reg.X)) = c.reg.A ∧
    (∀ b : Nat, b < 65536 → b ≠ c.memmap.mem (nn + c.reg.X) →
      (handle_opcode_91nn c nn).memmap.readByte b = c.memmap.readByte b) := by
  obtain ⟨⟨-, -, hX, -, hA, -⟩, hm⟩ := hc
  have eA : c.reg.A % 256 = c.reg.A := Nat.mod_eq_of_lt hA
  have hp : c.memmap.readByte (nn % 256 + c.reg.X) = c.memmap.mem (nn + c.reg.X) := by
    rw [memory_map.readByte_eq]
    congr 1
    omega
  have hlt : c.memmap.mem (nn + c.reg.X) < 256 := hp ▸ memory_map.readByte_lt _ hm _
  refine ⟨rfl, rfl, ?_, ?_⟩
  · exact (memory_map.writeByte_read_eq c.memmap
      (c.memmap.readByte (nn % 256 + c.reg.X)) c.reg.A _ (by rw [hp])).trans eA
  · intro b hb hne
    exact memory_map.writeByte_read_other c.memmap
      (c.memmap.readByte (nn % 256 + c.reg.X)) c.reg.A b (by rw [hp]; omega)

/-- Witness of C19: with `A = 0x55`, `X = 0x01`, `memory[0x0021] = 0x40` and operand
`0x20`, handler 91nn writes `0x55` at `0x40` whatever `Y` is. -/
theorem C19_witness_write_at_0x40 :
    state_ind_store.wf ∧ (0x20 : Nat) < 256 ∧
    (handle_opcode_91nn state_ind_store 0x20).memmap.readByte 0x40 = 0x55 :=
  ⟨state_ind_store_wf, by decide,
    (C19_91nn_same_as_81nn state_ind_store 0x20 0x77 state_ind_store_wf (by decide)).2.2.1⟩

/-- C20: handler 9A (`MOV S, X`) makes `S` the value of `X` and leaves A, X, Y, PC,
all seven flags and the whole memory as they were. -/
theorem C20_9A_sets_S_only (c : cpu_6502) (hc : c.wf) :
    (handle_opcode_9A c).reg.S = c.reg.X ∧
    (handle_opcode_9A c).reg.A = c.reg.A ∧
    (handle_opcode_9A c).reg.X = c.reg.X ∧
    (handle_opcode_9A c).reg.Y = c.reg.Y ∧
    (handle_opcode_9A c).reg.PC = c.reg.PC ∧
    (handle_opcode_9A c).reg.flagN = c.reg.flagN ∧
    (handle_opcode_9A c).reg.flagZ = c.reg.flagZ ∧
    (handle_opcode_9A c).reg.flagC = c.reg.flagC ∧
    (handle_opcode_9A c).reg.flagI = c.reg.flagI ∧
    (handle_opcode_9A c).reg.flagD = c.reg.flagD ∧
    (handle_opcode_9A c).reg.flagB = c.reg.flagB ∧
    (handle_opcode_9A c).reg.flagV = c.reg.flagV ∧
    (handle_opcode_9A c).memmap = c.memmap :=
  ⟨Nat.mod_eq_of_lt hc.1.2.2.1, rfl, rfl, rfl, rfl, rfl, rfl, rfl, rfl, rfl, rfl, rfl, rfl⟩

/-- Witness of C20: with `X = 0x01` and the Zero and Carry flags set, handler 9A
gives `S = 0x01` and keeps Zero and Negative. -/
theorem C20_witness_9A :
    state_store.wf ∧ (handle_opcode_9A state_store).reg.S = 0x01 ∧
    (handle_opcode_9A state_store).reg.flagZ = 1 ∧
    (handle_opcode_9A state_store).reg.flagN = 0 :=
  have h := C20_9A_sets_S_only state_store state_store_wf
  ⟨state_store_wf, h.1, h.2.2.2.2.2.2.1, h.2.2.2.2.2.1⟩

end FreeNES
